import Mathlib

/-!
Verification development for the TensorCore C model.

The definitions below are shallow embeddings of the C++ sources:
  * `src/tensorcore/fp_types.h`      — rounding primitive, format conversions
  * `src/tensorcore/fp_arith.h`      — three-phase multiplier, two-path adder,
                                       host-double shortcut wrappers
  * `src/tensorcore/tensor_core_sim.h` — pipelined tensor-core simulator and
                                       the non-pipelined reference model
  * `src/tensorcore_Cmodel/otc_fp.cpp`   — the second (FPEmu) converter copies
  * `src/tensorcore_Cmodel/otc_types.h`  — configuration validation
  * `src/tensorcore_Cmodel/otc_driver.cpp` — driver configure entry point

Machine integers are modelled as `Nat` (unsigned) and `Int` (C `int`), with
explicit masking where the source masks or where C wrap-around semantics can
arise.  IEEE `double` arithmetic, which the source uses as a bit-exact
shortcut for the FP9/FP22 ops, is modelled exactly: every double produced by
these code paths is a normal IEEE double (magnitudes lie in [2^-140, 2^129]),
so `+` and `*` are "exact rational op, then round to 53 significant bits,
round-to-nearest-even" with no overflow, underflow or subnormal corner cases.
-/

-- ─────────────────────────────────────────────────────────────
-- Rounding modes (fp_types.h, enum RoundingMode)
-- ─────────────────────────────────────────────────────────────

inductive RoundingMode where
  | RNE | RTZ | RDN | RUP | RMM
deriving DecidableEq, Repr

open RoundingMode

/-- Precision type identifiers (fp_types.h, enum PrecisionType). -/
inductive PrecisionType where
  | PREC_FP4_E2M1 | PREC_FP8_E4M3 | PREC_FP8_E5M2 | PREC_FP16 | PREC_FP32
deriving DecidableEq, Repr

-- ─────────────────────────────────────────────────────────────
-- Leading-zero counter (fp_types.h, clz)
-- ─────────────────────────────────────────────────────────────

/-- Helper for `clz`: scans bit positions `width-1, …, 0` of `val` from the
top, counting clear bits until the first set bit. -/
def clzGo (val : Nat) : Nat → Nat
  | 0 => 0
  | i + 1 => cond ((val >>> i) &&& 1 == 1) 0 (clzGo val i + 1)

/-- `clz` from fp_types.h: returns `width` when `val = 0`, otherwise the
number of leading zeros of the `width`-bit value. -/
def clz (val : Nat) (width : Nat) : Nat :=
  cond (val == 0) width (clzGo val width)

-- ─────────────────────────────────────────────────────────────
-- RTL-accurate rounding primitive (fp_types.h, do_rounding)
-- ─────────────────────────────────────────────────────────────

structure RoundResult where
  out : Nat
  inexact : Bool
  cout : Bool
  r_up : Bool
deriving Repr, DecidableEq

/-- `do_rounding` from fp_types.h.  `inp` plays the role of `in` (a Lean
keyword).  All widths are as in the source; the `uint32_t` inputs are
masked to `WIDTH` bits exactly as the C code does. -/
def do_rounding (inp : Nat) (WIDTH : Nat) (sign roundin stickyin : Bool)
    (rm : RoundingMode) : RoundResult :=
  let mask := (1 <<< WIDTH) - 1
  let i := inp &&& mask
  let inexact := roundin || stickyin
  let r_up :=
    match rm with
    | RNE => roundin && (stickyin || (i &&& 1 == 1))
    | RTZ => false
    | RDN => sign && inexact
    | RUP => !sign && inexact
    | RMM => roundin
  let sum := i + (cond r_up 1 0)
  { out := sum &&& mask
    inexact := inexact
    cout := (sum >>> WIDTH) &&& 1 == 1
    r_up := r_up }

-- ─────────────────────────────────────────────────────────────
-- Exact model of IEEE binary64 ("double") values in the range
-- exercised by this code (all normal; no overflow/underflow).
-- ─────────────────────────────────────────────────────────────

/-- A C `double` as used by the FP9/FP22 shortcut paths.  A finite value is
`(-1)^s * m * 2^e` with `m : Nat`; `m = 0` encodes a signed zero.  NaN is
unsigned: every NaN flowing through these paths is the positive quiet `NAN`
constant (`fp9_to_double`/`fp22_to_double` return the `NAN` macro, losing
the payload and sign). -/
inductive FDouble where
  | nan
  | inf (s : Bool)
  | fin (s : Bool) (m : Nat) (e : Int)
deriving DecidableEq, Repr

/-- Bit length of a natural number (fuel-driven so that it reduces by
`rfl`/`decide`; 400 bits of fuel covers every value arising here). -/
def bitlenGo : Nat → Nat → Nat
  | 0, _ => 0
  | f + 1, n => cond (n == 0) 0 (bitlenGo f (n / 2) + 1)

def bitlen (n : Nat) : Nat := bitlenGo 400 n

/-- Round `num / 2^sh` to the nearest integer, ties to even (`sh ≥ 1`). -/
def rneShift (num sh : Nat) : Nat :=
  let q := num >>> sh
  let r := num &&& ((1 <<< sh) - 1)
  let half := 1 <<< (sh - 1)
  cond (decide (half < r) || (r == half && q &&& 1 == 1)) (q + 1) q

/-- Round the exact value `(-1)^s * m * 2^e` to 53 significant bits
(round-to-nearest-even), producing the canonically normalized double
(`2^52 ≤ m' < 2^53` unless zero).  This is exactly what an IEEE double
operation does to an exact result in the normal range. -/
def roundDouble (s : Bool) (m : Nat) (e : Int) : FDouble :=
  if m = 0 then .fin s 0 0
  else
    let L := bitlen m
    if L ≤ 53 then .fin s (m <<< (53 - L)) (e - (53 - L))
    else
      let sh := L - 53
      let q := rneShift m sh
      if q = 1 <<< 53 then .fin s (1 <<< 52) (e + sh + 1) else .fin s q (e + sh)

/-- IEEE double addition restricted to the (all-normal, no-overflow) range
used by this code: exact rational sum, then round to 53 bits.  Signed-zero
results follow IEEE round-to-nearest rules (`+0` unless both inputs are
`-0`). -/
def dAdd (x y : FDouble) : FDouble :=
  match x, y with
  | .nan, _ => .nan
  | _, .nan => .nan
  | .inf s, .inf t => if s = t then .inf s else .nan
  | .inf s, .fin _ _ _ => .inf s
  | .fin _ _ _, .inf t => .inf t
  | .fin s1 m1 e1, .fin s2 m2 e2 =>
    if m1 = 0 ∧ m2 = 0 then .fin (s1 && s2) 0 0
    else if m1 = 0 then .fin s2 m2 e2
    else if m2 = 0 then .fin s1 m1 e1
    else
      let e := min e1 e2
      let i1 : Int := (cond s1 (-1) 1) * (m1 <<< (e1 - e).toNat : Nat)
      let i2 : Int := (cond s2 (-1) 1) * (m2 <<< (e2 - e).toNat : Nat)
      let i := i1 + i2
      if i = 0 then .fin false 0 0
      else roundDouble (decide (i < 0)) i.natAbs e

/-- IEEE double multiplication restricted to the same range. -/
def dMul (x y : FDouble) : FDouble :=
  match x, y with
  | .nan, _ => .nan
  | _, .nan => .nan
  | .inf s, .inf t => .inf (xor s t)
  | .inf s, .fin t m _ => if m = 0 then .nan else .inf (xor s t)
  | .fin s m _, .inf t => if m = 0 then .nan else .inf (xor s t)
  | .fin s1 m1 e1, .fin s2 m2 e2 => roundDouble (xor s1 s2) (m1 * m2) (e1 + e2)

-- ─────────────────────────────────────────────────────────────
-- double ↔ format conversions (fp_types.h)
-- ─────────────────────────────────────────────────────────────

/-- `fp9_to_double` from fp_types.h.  FP9 = E5M3, bias 15.  Values are exact
in double, so we produce the exact `FDouble`. -/
def fp9_to_double (fp9 : Nat) : FDouble :=
  let s := (fp9 >>> 8) &&& 1 == 1
  let e := (fp9 >>> 3) &&& 0x1F
  let m := fp9 &&& 0x7
  if e = 31 then (if m ≠ 0 then .nan else .inf s)
  else if e = 0 ∧ m = 0 then .fin s 0 0
  else if e = 0 then .fin s m (-17)          -- (m/8) * 2^-14
  else .fin s (8 + m) ((e : Int) - 18)       -- (1 + m/8) * 2^(e-15)

/-- `fp22_to_double` from fp_types.h.  FP22 = E8M13, bias 127. -/
def fp22_to_double (fp22 : Nat) : FDouble :=
  let s := (fp22 >>> 21) &&& 1 == 1
  let e := (fp22 >>> 13) &&& 0xFF
  let m := fp22 &&& 0x1FFF
  if e = 255 then (if m ≠ 0 then .nan else .inf s)
  else if e = 0 ∧ m = 0 then .fin s 0 0
  else if e = 0 then .fin s m (-139)         -- (m/8192) * 2^-126
  else .fin s (8192 + m) ((e : Int) - 140)   -- (1 + m/8192) * 2^(e-127)

/-- `double_to_fp22` from fp_types.h, translated to act on the exact double
model.  The C code extracts the raw binary64 fields, so we first normalize
to the canonical 53-bit significand (`m_full` below is the C `m_full`, the
mantissa with the hidden bit).  Rounding is the source's add-half-then-
truncate (round half away from zero), not RNE — kept as in the source. -/
def double_to_fp22 (d : FDouble) : Nat :=
  match d with
  | .nan => (0xFF <<< 13) ||| 1              -- sign of the NAN constant is 0
  | .inf s => (cond s 1 0) <<< 21 ||| (0xFF <<< 13)
  | .fin s m e =>
    let sb : Nat := cond s 1 0
    if m = 0 then sb <<< 21
    else
      match roundDouble s m e with
      | .fin _ mc ec =>
        -- biased double exponent e_d = (ec + 52) + 1023; e_d = 0 would mean
        -- a subnormal double, which these code paths never produce.
        if ec + 52 < -1022 then sb <<< 21
        else
          let e_fp22 : Int := (ec + 52) + 127
          let m_full := mc
          if e_fp22 ≥ 255 then sb <<< 21 ||| (0xFF <<< 13)
          else if e_fp22 ≤ 0 then
            let shift := (39 + (1 - e_fp22)).toNat
            if shift ≥ 64 then sb <<< 21
            else
              let m_full := m_full + (1 <<< (shift - 1))
              let m_fp22 := m_full >>> shift
              sb <<< 21 ||| m_fp22
          else
            let m_full := m_full + (1 <<< 38)
            if (m_full >>> 53) &&& 1 == 1 then
              let m_full := m_full >>> 1
              let e2 := e_fp22 + 1
              if e2 ≥ 255 then sb <<< 21 ||| (0xFF <<< 13)
              else sb <<< 21 ||| (e2.toNat <<< 13) ||| ((m_full >>> 39) &&& 0x1FFF)
            else sb <<< 21 ||| (e_fp22.toNat <<< 13) ||| ((m_full >>> 39) &&& 0x1FFF)
      | _ => 0  -- unreachable: roundDouble of a finite value is finite

/-- Modelled from the spec: `double_to_fp9` is called by `fp9_multiply` and
`fp9_add` (fp_arith.h) but is not defined anywhere under src/.  Per §4.5 of
the spec, narrowing conversions "align to target mantissa width, extract
guard/round/sticky, invoke §4.1 rounding" with round-to-nearest-even as the
default, overflow going to Inf under RNE (§4.3), subnormal targets handled,
and NaN producing a quiet NaN (quiet bit = mantissa MSB, §3).  The sign of
a NaN result is 0 because the C paths only ever produce the positive `NAN`
constant.  FP9 = E5M3: bias 15, quiet bit `4`. -/
def double_to_fp9 (d : FDouble) : Nat :=
  match d with
  | .nan => (0x1F <<< 3) ||| 4
  | .inf s => (cond s 1 0) <<< 8 ||| (0x1F <<< 3)
  | .fin s m e =>
    let sb : Nat := cond s 1 0
    if m = 0 then sb <<< 8
    else
      let L := bitlen m
      let E : Int := (L : Int) - 1 + e       -- 2^E ≤ |value| < 2^(E+1)
      if E < -14 then
        -- subnormal target: round to an integer multiple of 2^-17
        let q := if e + 17 ≥ 0 then m <<< (e + 17).toNat
                 else rneShift m (-(e + 17)).toNat
        if q = 8 then sb <<< 8 ||| (1 <<< 3) else sb <<< 8 ||| q
      else
        -- normal target: round to 4 significant bits
        let q := if L ≤ 4 then m <<< (4 - L) else rneShift m (L - 4)
        let q2 := if q = 16 then 8 else q
        let E2 := if q = 16 then E + 1 else E
        let be : Int := E2 + 15
        if be ≥ 31 then sb <<< 8 ||| (0x1F <<< 3)
        else sb <<< 8 ||| (be.toNat <<< 3) ||| (q2 - 8)

-- ─────────────────────────────────────────────────────────────
-- Host-double shortcut wrappers (fp_arith.h, bottom)
-- ─────────────────────────────────────────────────────────────

/-- `fp9_multiply` from fp_arith.h: `(void)rm;` — the rounding mode is
ignored; the product is computed in double and converted back. -/
def fp9_multiply (a b : Nat) (_rm : RoundingMode) : Nat :=
  double_to_fp9 (dMul (fp9_to_double a) (fp9_to_double b))

/-- `fp9_add` from fp_arith.h: `(void)rm;` — rounding mode ignored. -/
def fp9_add (a b : Nat) (_rm : RoundingMode) : Nat :=
  double_to_fp9 (dAdd (fp9_to_double a) (fp9_to_double b))

/-- `fp22_add` from fp_arith.h: `(void)rm;` — rounding mode ignored. -/
def fp22_add (a b : Nat) (_rm : RoundingMode) : Nat :=
  double_to_fp22 (dAdd (fp22_to_double a) (fp22_to_double b))

-- ─────────────────────────────────────────────────────────────
-- Input → FP9 and FP9/FP16 → FP22 conversions (fp_types.h)
-- ─────────────────────────────────────────────────────────────

/-- `fp4_to_fp9` from fp_types.h (the tensor-core entry copy). -/
def fp4_to_fp9 (fp4 : Nat) : Nat :=
  let s := (fp4 >>> 3) &&& 1
  let e := (fp4 >>> 1) &&& 3
  let m := fp4 &&& 1
  if e = 3 ∧ m = 1 then s <<< 8 ||| (0x1F <<< 3) ||| 4      -- NaN
  else if e = 3 ∧ m = 0 then s <<< 8 ||| (0x1F <<< 3)       -- Inf
  else if e = 0 ∧ m = 0 then s <<< 8                        -- Zero
  else if e = 0 then s <<< 8 ||| (14 <<< 3)                 -- subnorm → 1.0 * 2^(-1)
  else s <<< 8 ||| ((e + 14) <<< 3) ||| (m <<< 2)           -- normal: rebias

/-- `fp9_to_fp22` from fp_types.h. -/
def fp9_to_fp22 (fp9 : Nat) : Nat :=
  let s := (fp9 >>> 8) &&& 1
  let e := (fp9 >>> 3) &&& 0x1F
  let m := fp9 &&& 7
  if e = 0 ∧ m = 0 then s <<< 21
  else if e = 0x1F then
    s <<< 21 ||| (0xFF <<< 13) ||| (cond (m != 0) (0x1000 ||| (m <<< 10)) 0)
  else if e = 0 then
    let lz := clz m 3
    let ne : Int := -14 - lz + 127
    if ne ≤ 0 then s <<< 21 ||| ((m <<< (10 + 1 + lz)) &&& 0x1FFF)
    else s <<< 21 ||| (ne.toNat <<< 13) ||| ((((m <<< (1 + lz)) &&& 7) <<< 10) &&& 0x1FFF)
  else s <<< 21 ||| ((e + 112) <<< 13) ||| (m <<< 10)

/-- `fp16_to_fp22` from fp_types.h. -/
def fp16_to_fp22 (fp16 : Nat) : Nat :=
  let s := (fp16 >>> 15) &&& 1
  let e := (fp16 >>> 10) &&& 0x1F
  let m := fp16 &&& 0x3FF
  if e = 0 ∧ m = 0 then s <<< 21
  else if e = 0x1F then s <<< 21 ||| (0xFF <<< 13) ||| (cond (m != 0) 0x1000 0)
  else if e = 0 then
    let lz := clz m 10
    let ne : Int := -14 - lz + 127
    if ne ≤ 0 then s <<< 21 ||| ((m <<< (3 + 1 + lz)) &&& 0x1FFF)
    else s <<< 21 ||| (ne.toNat <<< 13) ||| ((((m <<< (1 + lz)) &&& 0x3FF) <<< 3) &&& 0x1FFF)
  else s <<< 21 ||| ((e + 112) <<< 13) ||| ((m <<< 3) &&& 0x1FFF)

-- ─────────────────────────────────────────────────────────────
-- FP22 → output format conversions (fp_types.h)
-- ─────────────────────────────────────────────────────────────

/-- Rounding-decision helper used inline (as a `switch`) by the FP22
narrowing converters in fp_types.h. -/
def convRoundUp (rm : RoundingMode) (s : Bool) (g r st : Bool) (o : Nat) : Bool :=
  match rm with
  | RNE => g && (r || st || (o &&& 1 == 1))
  | RTZ => false
  | RDN => s && (g || r || st)
  | RUP => !s && (g || r || st)
  | RMM => g

/-- `fp22_to_fp8_e4m3` from fp_types.h.  E4M3 has no Inf: `e = 0xFF`
(Inf or NaN) and every overflow saturate to `(e=14, m=7)`. -/
def fp22_to_fp8_e4m3 (fp22 : Nat) (rm : RoundingMode) : Nat :=
  let s := (fp22 >>> 21) &&& 1
  let sb := s == 1
  let e := (fp22 >>> 13) &&& 0xFF
  let m := fp22 &&& 0x1FFF
  if e = 0xFF then s <<< 7 ||| (14 <<< 3) ||| 7            -- max (E4M3 no inf)
  else if e = 0 then s <<< 7
  else
    let ne : Int := (e : Int) - 120
    let fm := (1 <<< 13) ||| m
    if ne ≥ 15 then s <<< 7 ||| (14 <<< 3) ||| 7
    else if ne ≤ 0 then
      let sh := (1 - ne).toNat
      if sh > 14 then s <<< 7
      else
        let fm := fm >>> sh
        let o := (fm >>> 10) &&& 7
        let g := (fm >>> 9) &&& 1 == 1
        let r := (fm >>> 8) &&& 1 == 1
        let st := fm &&& 0xFF != 0
        let up := convRoundUp rm sb g r st o
        if up then
          let o := o + 1
          if o ≥ 8 then s <<< 7 ||| (1 <<< 3) ||| 0
          else s <<< 7 ||| (0 <<< 3) ||| (o &&& 7)
        else s <<< 7 ||| (0 <<< 3) ||| (o &&& 7)
    else
      let o := (m >>> 10) &&& 7
      let g := (m >>> 9) &&& 1 == 1
      let r := (m >>> 8) &&& 1 == 1
      let st := m &&& 0xFF != 0
      let up := convRoundUp rm sb g r st o
      if up then
        let o := o + 1
        if o ≥ 8 then
          let ne := ne + 1
          if ne ≥ 15 then s <<< 7 ||| (14 <<< 3) ||| 7
          else s <<< 7 ||| (ne.toNat <<< 3) ||| 0
        else s <<< 7 ||| (ne.toNat <<< 3) ||| (o &&& 7)
      else s <<< 7 ||| (ne.toNat <<< 3) ||| (o &&& 7)

/-- `fp22_to_fp16` from fp_types.h. -/
def fp22_to_fp16 (fp22 : Nat) (rm : RoundingMode) : Nat :=
  let s := (fp22 >>> 21) &&& 1
  let sb := s == 1
  let e := (fp22 >>> 13) &&& 0xFF
  let m := fp22 &&& 0x1FFF
  if e = 0xFF then
    if m ≠ 0 then s <<< 15 ||| (0x1F <<< 10) ||| 0x200 else s <<< 15 ||| (0x1F <<< 10)
  else if e = 0 then s <<< 15
  else
    let ne : Int := (e : Int) - 112
    if ne ≥ 31 then
      let rmin := rm = RTZ ∨ (rm = RDN ∧ ¬sb) ∨ (rm = RUP ∧ sb)
      if rmin then s <<< 15 ||| (30 <<< 10) ||| 0x3FF else s <<< 15 ||| (0x1F <<< 10)
    else
      let fm := (1 <<< 13) ||| m
      if ne ≤ 0 then
        let sh := (1 - ne).toNat
        if sh > 14 then s <<< 15
        else
          let fm := fm >>> sh
          let o := (fm >>> 3) &&& 0x3FF
          let g := (fm >>> 2) &&& 1 == 1
          let r := (fm >>> 1) &&& 1 == 1
          let st := fm &&& 1 == 1
          let up := convRoundUp rm sb g r st o
          if up then
            let o := o + 1
            if o ≥ 1024 then s <<< 15 ||| (1 <<< 10) ||| 0
            else s <<< 15 ||| (0 <<< 10) ||| (o &&& 0x3FF)
          else s <<< 15 ||| (0 <<< 10) ||| (o &&& 0x3FF)
      else
        let o := (m >>> 3) &&& 0x3FF
        let g := (m >>> 2) &&& 1 == 1
        let r := (m >>> 1) &&& 1 == 1
        let st := m &&& 1 == 1
        let up := convRoundUp rm sb g r st o
        if up then
          let o := o + 1
          if o ≥ 1024 then
            let ne := ne + 1
            if ne ≥ 31 then
              let rmin := rm = RTZ ∨ (rm = RDN ∧ ¬sb) ∨ (rm = RUP ∧ sb)
              if rmin then s <<< 15 ||| (30 <<< 10) ||| 0x3FF else s <<< 15 ||| (0x1F <<< 10)
            else s <<< 15 ||| (ne.toNat <<< 10) ||| 0
          else s <<< 15 ||| (ne.toNat <<< 10) ||| (o &&& 0x3FF)
        else s <<< 15 ||| (ne.toNat <<< 10) ||| (o &&& 0x3FF)

-- ─────────────────────────────────────────────────────────────
-- Exact rational valuations of the packed formats, following the
-- `*_to_double` decoders in fp_types.h (used to state magnitude
-- hypotheses; only meaningful off the Inf/NaN exponent).
-- ─────────────────────────────────────────────────────────────

/-- Value denoted by a finite FP22 bit pattern (decoder of
`fp22_to_double`, fp_types.h, restricted to `e ≠ 255`). -/
def fp22_to_val (fp22 : Nat) : ℚ :=
  let s := (fp22 >>> 21) &&& 1
  let e := (fp22 >>> 13) &&& 0xFF
  let m := fp22 &&& 0x1FFF
  let sgn : ℚ := if s = 1 then -1 else 1
  if e = 0 then sgn * ((m : ℚ) / 8192) * (2 : ℚ) ^ (-(126 : ℤ))
  else sgn * (1 + (m : ℚ) / 8192) * (2 : ℚ) ^ ((e : ℤ) - 127)

/-- Value denoted by a finite FP8 E4M3 bit pattern (decoder of
`fp8_e4m3_to_double`, fp_types.h, restricted to `e ≠ 15`). -/
def fp8_e4m3_to_val (v : Nat) : ℚ :=
  let s := (v >>> 7) &&& 1
  let e := (v >>> 3) &&& 0xF
  let m := v &&& 0x7
  let sgn : ℚ := if s = 1 then -1 else 1
  if e = 0 then sgn * ((m : ℚ) / 8) * (2 : ℚ) ^ (-(6 : ℤ))
  else sgn * (1 + (m : ℚ) / 8) * (2 : ℚ) ^ ((e : ℤ) - 7)

/-- Value denoted by a finite FP9 bit pattern (decoder of `fp9_to_double`,
fp_types.h, restricted to `e ≠ 31`). -/
def fp9_to_val (v : Nat) : ℚ :=
  let s := (v >>> 8) &&& 1
  let e := (v >>> 3) &&& 0x1F
  let m := v &&& 0x7
  let sgn : ℚ := if s = 1 then -1 else 1
  if e = 0 then sgn * ((m : ℚ) / 8) * (2 : ℚ) ^ (-(14 : ℤ))
  else sgn * (1 + (m : ℚ) / 8) * (2 : ℚ) ^ ((e : ℤ) - 15)

/-- Value denoted by a finite FP4 E2M1 bit pattern (decoder of
`fp4_to_double`, fp_types.h, restricted to `e ≠ 3`). -/
def fp4_to_val (v : Nat) : ℚ :=
  let s := (v >>> 3) &&& 1
  let e := (v >>> 1) &&& 0x3
  let m := v &&& 0x1
  let sgn : ℚ := if s = 1 then -1 else 1
  if e = 0 then sgn * ((m : ℚ) / 2)
  else sgn * (1 + (m : ℚ) / 2) * (2 : ℚ) ^ ((e : ℤ) - 1)

-- ─────────────────────────────────────────────────────────────
-- The second converter copy (otc_fp.cpp, namespace FPEmu)
-- ─────────────────────────────────────────────────────────────

namespace FPEmu

/-- `FPEmu::fp4_to_fp9` from otc_fp.cpp — the near-duplicate copy of the
FP4 widening converter in the C-model half of the repository. -/
def fp4_to_fp9 (fp4 : Nat) : Nat :=
  let s := (fp4 >>> 3) &&& 1
  let e := (fp4 >>> 1) &&& 0x3
  let m := fp4 &&& 1
  if e = 0x3 then s <<< 8 ||| (0x1F <<< 3) ||| (cond (m != 0) 1 0)
  else if e = 0x0 then s <<< 8 ||| (m <<< 2)
  else if e = 0x1 then s <<< 8 ||| (0x0F <<< 3) ||| (m <<< 2)
  else s <<< 8 ||| (0x1F <<< 3)

end FPEmu

-- ─────────────────────────────────────────────────────────────
-- Configuration validation and driver configure path
-- (otc_types.h, otc_driver.cpp)
-- ─────────────────────────────────────────────────────────────

def TYPE_FP4 : Nat := 0x06
def TYPE_FP8 : Nat := 0x02
def TYPE_FP16 : Nat := 0x0A
def TYPE_FP32 : Nat := 0x0E

/-- `OTC_Config` from otc_types.h (the fields consulted by `validate`,
plus the sub-format selector). -/
structure OTC_Config where
  M : Int := 8
  K : Int := 8
  N : Int := 8
  type_ab : Nat := TYPE_FP8
  type_ab_sub : Nat := 0
  type_cd : Nat := TYPE_FP32
  transpose_b : Bool := false

/-- `OTC_Config::validate` from otc_types.h. -/
def OTC_Config.validate (cfg : OTC_Config) : Bool :=
  decide (cfg.M > 0) && decide (cfg.K > 0) && decide (cfg.N > 0)
    && (Int.land cfg.K (cfg.K - 1) == 0)
    && (cfg.type_ab == TYPE_FP4 || cfg.type_ab == TYPE_FP8 || cfg.type_ab == TYPE_FP16)
    && (cfg.type_cd == TYPE_FP16 || cfg.type_cd == TYPE_FP32)

/-- `OTC_Device` from otc_driver.h, with the tensor-core unit left as a
type parameter (its internals are irrelevant to the configure path). -/
structure OTC_Device (α : Type) where
  tc : α
  configured : Bool

/-- `otc_configure` from otc_driver.cpp: on an invalid configuration it
only prints to stderr and returns `-1`, touching neither `dev->tc` nor
`dev->configured`; otherwise it runs `tc.init(cfg)`, `tc.reset()` and sets
the flag.  `tcInit`/`tcReset` stand for the tensor-core unit's methods. -/
def otc_configure {α : Type} (tcInit : α → OTC_Config → α) (tcReset : α → α)
    (dev : OTC_Device α) (cfg : OTC_Config) : Int × OTC_Device α :=
  if !cfg.validate then (-1, dev)
  else (0, { tc := tcReset (tcInit dev.tc cfg), configured := true })

-- ─────────────────────────────────────────────────────────────
-- Three-phase multiplier (fp_arith.h, fmul_s1 / fmul_s2 / fmul_s3)
-- ─────────────────────────────────────────────────────────────

/-- Output of `fmul_s1` (fp_arith.h, struct FMulS1Out).  `shift_amt` is an
`int` in C; the pipeline later smuggles the packed `fmul_s3` result through
this field, hence `Int`. -/
structure FMulS1Out where
  special_case_valid : Bool := false
  special_case_nan : Bool := false
  special_case_inf : Bool := false
  special_case_inv : Bool := false
  special_case_haszero : Bool := false
  early_overflow : Bool := false
  prod_sign : Bool := false
  shift_amt : Int := 0
  exp_shifted : Int := 0
  may_be_subnormal : Bool := false
  rm : RoundingMode := RNE
deriving Repr, DecidableEq

/-- `fmul_s1` from fp_arith.h: exponent calculation and special-case
detection for the parameterized multiplier. -/
def fmul_s1 (a_bits b_bits : Nat) (EXPWIDTH PRECISION : Nat) (rm : RoundingMode) :
    FMulS1Out :=
  let PADDINGBITS := PRECISION + 2
  let BIASINT : Int := (1 <<< (EXPWIDTH - 1)) - 1
  let MAXNORMEXP : Int := (1 <<< EXPWIDTH) - 2
  let a_exp_raw := (a_bits >>> (PRECISION - 1)) &&& ((1 <<< EXPWIDTH) - 1)
  let b_exp_raw := (b_bits >>> (PRECISION - 1)) &&& ((1 <<< EXPWIDTH) - 1)
  let a_mant := a_bits &&& ((1 <<< (PRECISION - 1)) - 1)
  let b_mant := b_bits &&& ((1 <<< (PRECISION - 1)) - 1)
  let a_sign := (a_bits >>> (EXPWIDTH + PRECISION - 1)) &&& 1 == 1
  let b_sign := (b_bits >>> (EXPWIDTH + PRECISION - 1)) &&& 1 == 1
  let a_exp_is_zero := a_exp_raw == 0
  let b_exp_is_zero := b_exp_raw == 0
  let a_exp_is_ones := a_exp_raw == (1 <<< EXPWIDTH) - 1
  let b_exp_is_ones := b_exp_raw == (1 <<< EXPWIDTH) - 1
  let a_sig_is_zero := a_mant == 0
  let b_sig_is_zero := b_mant == 0
  let a_is_inf := a_exp_is_ones && a_sig_is_zero
  let b_is_inf := b_exp_is_ones && b_sig_is_zero
  let a_is_zero := a_exp_is_zero && a_sig_is_zero
  let b_is_zero := b_exp_is_zero && b_sig_is_zero
  let a_is_nan := a_exp_is_ones && !a_sig_is_zero
  let b_is_nan := b_exp_is_ones && !b_sig_is_zero
  let a_is_snan := a_is_nan && !((a_mant >>> (PRECISION - 2)) &&& 1 == 1)
  let b_is_snan := b_is_nan && !((b_mant >>> (PRECISION - 2)) &&& 1 == 1)
  let raw_a_exp : Int := ((a_exp_raw ||| (cond a_exp_is_zero 1 0) : Nat) : Int)
  let raw_b_exp : Int := ((b_exp_raw ||| (cond b_exp_is_zero 1 0) : Nat) : Int)
  let raw_a_sig := (cond a_exp_is_zero 0 (1 <<< (PRECISION - 1))) ||| a_mant
  let raw_b_sig := (cond b_exp_is_zero 0 (1 <<< (PRECISION - 1))) ||| b_mant
  let prod_sign := xor a_sign b_sign
  let exp_sum : Int := raw_a_exp + raw_b_exp
  let prod_exp : Int := exp_sum - (BIASINT - ((PADDINGBITS : Int) + 1))
  let shift_lim_sub : Int := exp_sum - (BIASINT - (PADDINGBITS : Int))
  let prod_exp_uf := decide (shift_lim_sub < 0)
  let shift_lim : Int := cond prod_exp_uf 0 shift_lim_sub
  let prod_exp_ov := decide (exp_sum > MAXNORMEXP + BIASINT)
  let subnormal_sig := cond a_exp_is_zero raw_a_sig raw_b_sig
  let lzc_width := PRECISION * 2 + 2
  let lzc_val : Int := clz subnormal_sig lzc_width
  let exceed_lim := decide (shift_lim ≤ lzc_val)
  let shift_amt : Int := cond prod_exp_uf 0 (cond exceed_lim shift_lim lzc_val)
  let exp_shifted : Int := prod_exp - shift_amt
  let has_zero := a_is_zero || b_is_zero
  let has_nan := a_is_nan || b_is_nan
  let has_snan := a_is_snan || b_is_snan
  let has_inf := a_is_inf || b_is_inf
  let zero_mul_inf := has_zero && has_inf
  { special_case_valid := has_zero || has_nan || has_inf
    special_case_nan := has_nan || zero_mul_inf
    special_case_inf := has_inf   -- RTL assigns has_inf even when zero_mul_inf
    special_case_inv := has_snan || zero_mul_inf
    special_case_haszero := has_zero
    early_overflow := prod_exp_ov
    prod_sign := prod_sign
    shift_amt := shift_amt
    exp_shifted := exp_shifted
    may_be_subnormal := exceed_lim || prod_exp_uf
    rm := rm }

/-- Output of `fmul_s2` (fp_arith.h, struct FMulS2Out). -/
structure FMulS2Out where
  prod : Nat
  s1 : FMulS1Out
deriving Repr, DecidableEq

/-- `fmul_s2` from fp_arith.h: the naive significand multiplier (a
`uint32_t` product, hence the 32-bit mask). -/
def fmul_s2 (a_bits b_bits : Nat) (EXPWIDTH PRECISION : Nat) (s1 : FMulS1Out) :
    FMulS2Out :=
  let a_exp_raw := (a_bits >>> (PRECISION - 1)) &&& ((1 <<< EXPWIDTH) - 1)
  let b_exp_raw := (b_bits >>> (PRECISION - 1)) &&& ((1 <<< EXPWIDTH) - 1)
  let a_mant := a_bits &&& ((1 <<< (PRECISION - 1)) - 1)
  let b_mant := b_bits &&& ((1 <<< (PRECISION - 1)) - 1)
  let a_exp_is_zero := a_exp_raw == 0
  let b_exp_is_zero := b_exp_raw == 0
  let raw_a_sig := (cond a_exp_is_zero 0 (1 <<< (PRECISION - 1))) ||| a_mant
  let raw_b_sig := (cond b_exp_is_zero 0 (1 <<< (PRECISION - 1))) ||| b_mant
  { prod := (raw_a_sig * raw_b_sig) &&& 0xFFFFFFFF, s1 := s1 }

/-- `fmul_s3` from fp_arith.h: normalization, rounding and result
assembly. -/
def fmul_s3 (s2 : FMulS2Out) (EXPWIDTH PRECISION : Nat) : Nat :=
  let NEAR_INV : Int := (1 <<< EXPWIDTH) - 2
  let INV : Int := (1 <<< EXPWIDTH) - 1
  let rm := s2.s1.rm
  let total_width := PRECISION * 3 + 2
  let sig_shifter_in := s2.prod
  let sig_shifted_long := sig_shifter_in <<< s2.s1.shift_amt.toNat
  let sig_shifted_raw := sig_shifted_long &&& ((1 <<< total_width) - 1)
  let exp_is_subnormal :=
    s2.s1.may_be_subnormal && !((sig_shifted_raw >>> (total_width - 1)) &&& 1 == 1)
  let no_extra_shift :=
    ((sig_shifted_raw >>> (total_width - 1)) &&& 1 == 1) || exp_is_subnormal
  let exp_pre_round : Int :=
    cond exp_is_subnormal 0 (cond no_extra_shift s2.s1.exp_shifted (s2.s1.exp_shifted - 1))
  let sig_shifted :=
    cond no_extra_shift sig_shifted_raw
      ((sig_shifted_raw &&& ((1 <<< (total_width - 1)) - 1)) <<< 1)
  let raw_in_sign := s2.s1.prod_sign
  let raw_in_exp : Int := Int.land exp_pre_round ((1 <<< EXPWIDTH) - 1)
  let top_bits := (sig_shifted >>> (PRECISION * 2)) &&& ((1 <<< (PRECISION + 2)) - 1)
  let sticky_low := sig_shifted &&& ((1 <<< (PRECISION + 2)) - 1) != 0
  let raw_in_sig := (top_bits <<< 1) ||| (cond sticky_low 1 0)
  let rounder1_in := raw_in_sig &&& ((1 <<< (PRECISION + 2)) - 1)
  let r1_data := (rounder1_in >>> 3) &&& ((1 <<< (PRECISION - 1)) - 1)
  let r1_roundin := (rounder1_in >>> 2) &&& 1 == 1
  let r1_stickyin := rounder1_in &&& 0x3 != 0
  let rr1 := do_rounding r1_data (PRECISION - 1) raw_in_sign r1_roundin r1_stickyin rm
  let exp_rounded : Int := (cond rr1.cout 1 0) + raw_in_exp
  let common_of :=
    (cond rr1.cout (decide (raw_in_exp = NEAR_INV)) (decide (raw_in_exp = INV)))
      || s2.s1.early_overflow
  let rmin := decide (rm = RTZ) || (decide (rm = RDN) && !raw_in_sign)
      || (decide (rm = RUP) && raw_in_sign)
  let of_exp : Int := cond rmin NEAR_INV INV
  let com_exp : Int := cond common_of of_exp exp_rounded
  let com_sig : Nat := cond common_of (cond rmin ((1 <<< (PRECISION - 1)) - 1) 0) rr1.out
  let common_result :=
    ((cond raw_in_sign 1 0) <<< (EXPWIDTH + PRECISION - 1)) |||
      ((Int.land com_exp ((1 <<< EXPWIDTH) - 1)).toNat <<< (PRECISION - 1)) |||
      (com_sig &&& ((1 <<< (PRECISION - 1)) - 1))
  if s2.s1.special_case_valid then
    let sp_exp : Int := cond s2.s1.special_case_inf INV 0
    let sp_sig : Nat := 0
    let sp_exp := cond s2.s1.special_case_nan INV sp_exp
    let sp_sig := cond s2.s1.special_case_nan (1 <<< (PRECISION - 2)) sp_sig
    ((cond raw_in_sign 1 0) <<< (EXPWIDTH + PRECISION - 1)) |||
      ((Int.land sp_exp ((1 <<< EXPWIDTH) - 1)).toNat <<< (PRECISION - 1)) |||
      (sp_sig &&& ((1 <<< (PRECISION - 1)) - 1))
  else common_result

/-- `fp_multiply` from fp_arith.h: the complete three-phase multiply. -/
def fp_multiply (a b : Nat) (EXPWIDTH PRECISION : Nat) (rm : RoundingMode) : Nat :=
  let s1_out := fmul_s1 a b EXPWIDTH PRECISION rm
  let s2_out := fmul_s2 a b EXPWIDTH PRECISION s1_out
  fmul_s3 s2_out EXPWIDTH PRECISION

-- ─────────────────────────────────────────────────────────────
-- Two-path adder (fp_arith.h, far_path / near_path / fadd_s1 / fadd_s2)
-- ─────────────────────────────────────────────────────────────

structure FarPathOut where
  result_sign : Bool
  result_exp : Nat
  result_sig : Nat
deriving Repr, DecidableEq

/-- `far_path_compute` from fp_arith.h.  `sig_result` is a C `int` and can
go negative on the (unused-in-selection) effective-subtract case; shifts
and masks on it follow two's-complement `int` semantics (`Int.shiftRight`
is an arithmetic shift, `Int.land` is two's-complement AND). -/
def far_path_compute (a_sign : Bool) (a_exp : Int) (a_sig b_sig : Nat)
    (expdiff : Int) (effsub small_add : Bool) (_EXPWIDTH PRECISION OUTPC : Nat) :
    FarPathOut :=
  let shifted :=
    if expdiff < (PRECISION : Int) + 3 then
      let mask := (1 <<< expdiff.toNat) - 1
      (b_sig &&& mask != 0, b_sig >>> expdiff.toNat)
    else (b_sig != 0, 0)
  let sticky := shifted.1
  let b_shifted := shifted.2
  let step :
      Int × Bool × Int :=       -- sig_result, sticky, a_exp after carry
    if effsub then ((a_sig : Int) - (b_shifted : Int), sticky, a_exp)
    else
      let sr : Int := (a_sig : Int) + (b_shifted : Int)
      if (sr.shiftRight PRECISION).land 1 = 1 then
        (sr.shiftRight 1, sticky || (sr.land 1 = 1), a_exp + 1)
      else (sr, sticky, a_exp)
  let sig_result := step.1
  let sticky := step.2.1
  let a_exp := step.2.2
  let result_exp : Nat := cond small_add 0 (Int.land a_exp 0xFFFFFFFF).toNat
  let shift : Int := (PRECISION : Int) - OUTPC - 2
  let ts :
      Bool × Int :=             -- extra_sticky, top_sig
    if shift > 0 then
      (sig_result.land ((1 <<< shift.toNat) - 1) ≠ 0, sig_result.shiftRight shift.toNat)
    else (false, sig_result * ((1 <<< (-shift).toNat : Nat) : Int))
  let extra_sticky := ts.1
  let top_sig := ts.2
  { result_sign := a_sign
    result_exp := result_exp
    result_sig :=
      ((top_sig.land ((1 <<< (OUTPC + 2)) - 1)).toNat <<< 1) |||
        (cond (sticky || extra_sticky) 1 0) }

structure NearPathOut where
  result_sign : Bool
  result_exp : Nat
  result_sig : Nat
  sig_is_zero : Bool
  a_lt_b : Bool
deriving Repr, DecidableEq

/-- `near_path_compute` from fp_arith.h. -/
def near_path_compute (a_sign : Bool) (a_exp : Int) (a_sig : Nat)
    (b_sign : Bool) (b_sig : Nat) (need_shift_b : Bool)
    (_EXPWIDTH PRECISION OUTPC : Nat) : NearPathOut :=
  let b_sig_aligned := cond need_shift_b (b_sig >>> 1) b_sig
  let a_lt_b := decide (a_sig < b_sig_aligned)
  let sig_diff := cond a_lt_b (b_sig_aligned - a_sig) (a_sig - b_sig_aligned)
  let result_sign := cond a_lt_b b_sign a_sign
  let lzc_val := clz sig_diff (PRECISION + 1)
  let sig_normalized := sig_diff <<< lzc_val
  let exp_normalized : Int := a_exp - lzc_val
  let exp_normalized := if exp_normalized ≤ 0 then 0 else exp_normalized
  let shift : Int := (PRECISION : Int) - OUTPC - 2
  let rs := if shift > 0 then sig_normalized >>> shift.toNat
            else sig_normalized <<< (-shift).toNat
  { result_sign := result_sign
    result_exp := exp_normalized.toNat
    result_sig := rs &&& ((1 <<< (OUTPC + 3)) - 1)
    sig_is_zero := sig_diff == 0
    a_lt_b := a_lt_b }

/-- Output of `fadd_s1` (fp_arith.h, struct FAddS1Out). -/
structure FAddS1Out where
  rm : RoundingMode
  far_sign : Bool
  far_exp : Int
  far_sig : Nat
  near_sign : Bool
  near_exp : Int
  near_sig : Nat
  special_case_valid : Bool
  special_case_iv : Bool
  special_case_nan : Bool
  special_case_inf_sign : Bool
  small_add : Bool
  far_mul_of : Bool
  near_sig_is_zero : Bool
  sel_far_path : Bool
deriving Repr, DecidableEq

/-- `fadd_s1` from fp_arith.h: classification, path selection and the two
parallel path computations. -/
def fadd_s1 (a_bits b_bits : Nat) (EXPWIDTH PRECISION OUTPC : Nat)
    (rm : RoundingMode) : FAddS1Out :=
  let a_exp_raw := (a_bits >>> (PRECISION - 1)) &&& ((1 <<< EXPWIDTH) - 1)
  let b_exp_raw := (b_bits >>> (PRECISION - 1)) &&& ((1 <<< EXPWIDTH) - 1)
  let a_mant := a_bits &&& ((1 <<< (PRECISION - 1)) - 1)
  let b_mant := b_bits &&& ((1 <<< (PRECISION - 1)) - 1)
  let a_sign := (a_bits >>> (EXPWIDTH + PRECISION - 1)) &&& 1 == 1
  let b_sign := (b_bits >>> (EXPWIDTH + PRECISION - 1)) &&& 1 == 1
  let a_exp_is_zero := a_exp_raw == 0
  let b_exp_is_zero := b_exp_raw == 0
  let a_exp_is_ones := a_exp_raw == (1 <<< EXPWIDTH) - 1
  let b_exp_is_ones := b_exp_raw == (1 <<< EXPWIDTH) - 1
  let a_sig_is_zero := a_mant == 0
  let b_sig_is_zero := b_mant == 0
  let a_is_inf := a_exp_is_ones && a_sig_is_zero
  let b_is_inf := b_exp_is_ones && b_sig_is_zero
  let a_is_nan := a_exp_is_ones && !a_sig_is_zero
  let b_is_nan := b_exp_is_ones && !b_sig_is_zero
  let a_is_snan := a_is_nan && !((a_mant >>> (PRECISION - 2)) &&& 1 == 1)
  let b_is_snan := b_is_nan && !((b_mant >>> (PRECISION - 2)) &&& 1 == 1)
  let raw_a_exp : Int := ((a_exp_raw ||| (cond a_exp_is_zero 1 0) : Nat) : Int)
  let raw_b_exp : Int := ((b_exp_raw ||| (cond b_exp_is_zero 1 0) : Nat) : Int)
  let raw_a_sig := (cond a_exp_is_zero 0 (1 <<< (PRECISION - 1))) ||| a_mant
  let raw_b_sig := (cond b_exp_is_zero 0 (1 <<< (PRECISION - 1))) ||| b_mant
  let eff_sub := xor a_sign b_sign
  let small_add := a_exp_is_zero && b_exp_is_zero
  let special_has_nan := a_is_nan || b_is_nan
  let special_has_snan := a_is_snan || b_is_snan
  let special_has_inf := a_is_inf || b_is_inf
  let inf_iv := a_is_inf && b_is_inf && eff_sub
  let exp_diff_a_b : Int := raw_a_exp - raw_b_exp
  let exp_diff_b_a : Int := raw_b_exp - raw_a_exp
  let need_swap := decide (exp_diff_a_b < 0)
  let ea_minus_eb : Int := cond need_swap exp_diff_b_a exp_diff_a_b
  let sel_far_path := !eff_sub || decide (ea_minus_eb > 1)
  let far_a_sign := cond need_swap b_sign a_sign
  let far_a_exp : Int := cond need_swap raw_b_exp raw_a_exp
  let far_a_sig := cond need_swap raw_b_sig raw_a_sig
  let far_b_sig := cond need_swap raw_a_sig raw_b_sig
  let fpo := far_path_compute far_a_sign far_a_exp far_a_sig far_b_sig
      ea_minus_eb eff_sub small_add EXPWIDTH PRECISION OUTPC
  let near_exp_neq := a_exp_raw != b_exp_raw
  let np0 := near_path_compute a_sign raw_a_exp raw_a_sig b_sign raw_b_sig
      near_exp_neq EXPWIDTH PRECISION OUTPC
  let np1 := near_path_compute b_sign raw_b_exp raw_b_sig a_sign raw_a_sig
      near_exp_neq EXPWIDTH PRECISION OUTPC
  let near_sel := need_swap || (!near_exp_neq && np0.a_lt_b)
  { rm := rm
    far_sign := fpo.result_sign
    far_exp := (fpo.result_exp : Int)
    far_sig := fpo.result_sig
    near_sign := cond near_sel np1.result_sign np0.result_sign
    near_exp := cond near_sel (np1.result_exp : Int) (np0.result_exp : Int)
    near_sig := cond near_sel np1.result_sig np0.result_sig
    special_case_valid := special_has_nan || special_has_inf
    special_case_iv := special_has_snan || inf_iv
    special_case_nan := special_has_nan || inf_iv
    special_case_inf_sign := cond a_is_inf a_sign b_sign
    small_add := small_add
    far_mul_of := b_exp_is_ones && !eff_sub
    near_sig_is_zero := cond near_sel np1.sig_is_zero np0.sig_is_zero
    sel_far_path := sel_far_path }

/-- `fadd_s2` from fp_arith.h: rounding and result assembly (called with
`PRECISION := OUTPC` by `fp_add`). -/
def fadd_s2 (s1 : FAddS1Out) (EXPWIDTH PRECISION : Nat) : Nat :=
  let NEAR_INV : Int := (1 <<< EXPWIDTH) - 2
  let INV : Int := (1 <<< EXPWIDTH) - 1
  let rm := s1.rm
  if s1.special_case_valid then
    if s1.special_case_nan then
      let nan_sig := 1 <<< (PRECISION - 2)
      (INV.toNat <<< (PRECISION - 1)) ||| nan_sig
    else INV.toNat <<< (PRECISION - 1)
  else
    let far_r1_in := s1.far_sig &&& ((1 <<< (PRECISION + 2)) - 1)
    let far_r1_data := (far_r1_in >>> 3) &&& ((1 <<< (PRECISION - 1)) - 1)
    let far_r1_round := (far_r1_in >>> 2) &&& 1 == 1
    let far_r1_sticky := far_r1_in &&& 3 != 0
    let far_rr := do_rounding far_r1_data (PRECISION - 1) s1.far_sign far_r1_round
        far_r1_sticky rm
    let far_exp_rounded : Int := (cond far_rr.cout 1 0) + s1.far_exp
    let far_of_before := decide (s1.far_exp = INV)
    let far_of_after := far_rr.cout && decide (s1.far_exp = NEAR_INV)
    let far_of := far_of_before || far_of_after || s1.far_mul_of
    let far_result :=
      ((cond s1.far_sign 1 0) <<< (EXPWIDTH + PRECISION - 1)) |||
        ((Int.land far_exp_rounded ((1 <<< EXPWIDTH) - 1)).toNat <<< (PRECISION - 1)) |||
        (far_rr.out &&& ((1 <<< (PRECISION - 1)) - 1))
    let near_is_zero := decide (s1.near_exp = 0) && s1.near_sig_is_zero
    let near_r1_in := s1.near_sig &&& ((1 <<< (PRECISION + 2)) - 1)
    let near_r1_data := (near_r1_in >>> 3) &&& ((1 <<< (PRECISION - 1)) - 1)
    let near_r1_round := (near_r1_in >>> 2) &&& 1 == 1
    let near_r1_sticky := near_r1_in &&& 3 != 0
    let near_rr := do_rounding near_r1_data (PRECISION - 1) s1.near_sign near_r1_round
        near_r1_sticky rm
    let near_exp_rounded : Int := (cond near_rr.cout 1 0) + s1.near_exp
    let near_zero_sign := decide (rm = RDN)
    let near_sign_out := (s1.near_sign && !near_is_zero) || (near_zero_sign && near_is_zero)
    let near_of := decide (near_exp_rounded = (1 <<< EXPWIDTH) - 1)
    let near_result :=
      ((cond near_sign_out 1 0) <<< (EXPWIDTH + PRECISION - 1)) |||
        ((Int.land near_exp_rounded ((1 <<< EXPWIDTH) - 1)).toNat <<< (PRECISION - 1)) |||
        (near_rr.out &&& ((1 <<< (PRECISION - 1)) - 1))
    let common_of := cond s1.sel_far_path far_of near_of
    if common_of then
      let of_sign := cond s1.sel_far_path s1.far_sign s1.near_sign
      let rmin := decide (rm = RTZ) || (decide (rm = RDN) && !of_sign)
          || (decide (rm = RUP) && of_sign)
      let of_exp : Int := cond rmin NEAR_INV INV
      let of_sig : Nat := cond rmin ((1 <<< (PRECISION - 1)) - 1) 0
      ((cond of_sign 1 0) <<< (EXPWIDTH + PRECISION - 1)) |||
        ((Int.land of_exp ((1 <<< EXPWIDTH) - 1)).toNat <<< (PRECISION - 1)) |||
        (of_sig &&& ((1 <<< (PRECISION - 1)) - 1))
    else cond s1.sel_far_path far_result near_result

/-- `fp_add` from fp_arith.h: complete two-path add (note the source calls
`fadd_s2` with `PRECISION := OUTPC`). -/
def fp_add (a b : Nat) (EXPWIDTH PRECISION OUTPC : Nat) (rm : RoundingMode) : Nat :=
  let s1 := fadd_s1 a b EXPWIDTH PRECISION OUTPC rm
  fadd_s2 s1 EXPWIDTH OUTPC

-- ─────────────────────────────────────────────────────────────
-- Pipeline stage register (tensor_core_sim.h, PipeStage2)
-- ─────────────────────────────────────────────────────────────

/-- `PipeStage2<T>` from tensor_core_sim.h: a 2-stage elastic register with
valid/ready handshaking. -/
structure PipeStage2 (α : Type) where
  data1 : α
  data2 : α
  valid1 : Bool
  valid2 : Bool
deriving Repr, DecidableEq

def PipeStage2.in_ready {α} (p : PipeStage2 α) (out_ready : Bool) : Bool :=
  !(!out_ready && p.valid1 && p.valid2)

def PipeStage2.out_valid {α} (p : PipeStage2 α) : Bool := p.valid2

def PipeStage2.out_data {α} (p : PipeStage2 α) : α := p.data2

/-- `PipeStage2::tick` from tensor_core_sim.h (pure version; C mutates in
place and returns `reg_en1`, which no caller uses). -/
def PipeStage2.tick {α} (p : PipeStage2 α) (in_valid : Bool) (in_data : α)
    (out_ready : Bool) (compute1 compute2 : α → α) : PipeStage2 α :=
  let reg_en1 := in_valid && !(p.valid1 && p.valid2 && !out_ready)
  let reg_en2 := p.valid1 && !(p.valid2 && !out_ready)
  let new_valid1 := cond (!(!out_ready && p.valid1 && p.valid2)) in_valid p.valid1
  let new_valid2 := cond (!(!out_ready && p.valid2)) p.valid1 p.valid2
  let new_data1 := cond reg_en1 (compute1 in_data) p.data1
  let new_data2 := cond reg_en2 (compute2 p.data1) p.data2
  { data1 := new_data1, data2 := new_data2, valid1 := new_valid1, valid2 := new_valid2 }

def PipeStage2.resetStage {α} (p : PipeStage2 α) : PipeStage2 α :=
  { p with valid1 := false, valid2 := false }

-- Data tokens flowing through the pipeline (tensor_core_sim.h)

structure MulStage1Data where
  s1 : FMulS1Out
  a_bits : Nat
  b_bits : Nat
deriving Repr, DecidableEq

structure FP9Token where
  value : Nat
deriving Repr, DecidableEq

structure FP22Token where
  value : Nat
deriving Repr, DecidableEq


-- ─────────────────────────────────────────────────────────────
-- Single dot-product pipeline (tensor_core_sim.h, DotProductPipeline)
-- ─────────────────────────────────────────────────────────────

/-- `DotProductPipeline` from tensor_core_sim.h with the fixed-size C
arrays unrolled into one field per element (`mp0` = `mul_pipe[0]`,
`mr0` = `mul_results[0]`, `mrv0` = `mul_results_valid[0]`,
`aL0_0` = `add_L0[0]`, `l0a0/l0b0/l0v0` = `add_L0_a[0]/_b[0]/_input_valid[0]`,
and so on). -/
structure DotProductPipeline where
  mp0 : PipeStage2 MulStage1Data
  mp1 : PipeStage2 MulStage1Data
  mp2 : PipeStage2 MulStage1Data
  mp3 : PipeStage2 MulStage1Data
  mp4 : PipeStage2 MulStage1Data
  mp5 : PipeStage2 MulStage1Data
  mp6 : PipeStage2 MulStage1Data
  mp7 : PipeStage2 MulStage1Data
  mr0 : Nat
  mr1 : Nat
  mr2 : Nat
  mr3 : Nat
  mr4 : Nat
  mr5 : Nat
  mr6 : Nat
  mr7 : Nat
  mrv0 : Bool
  mrv1 : Bool
  mrv2 : Bool
  mrv3 : Bool
  mrv4 : Bool
  mrv5 : Bool
  mrv6 : Bool
  mrv7 : Bool
  aL0_0 : PipeStage2 FP9Token   -- pairs (0,4),(1,5),(2,6),(3,7)
  aL0_1 : PipeStage2 FP9Token
  aL0_2 : PipeStage2 FP9Token
  aL0_3 : PipeStage2 FP9Token
  aL1_0 : PipeStage2 FP9Token   -- pairs (L0 0, L0 1), (L0 2, L0 3)
  aL1_1 : PipeStage2 FP9Token
  aL2 : PipeStage2 FP9Token     -- pair (L1 0, L1 1)
  fadd : PipeStage2 FP22Token   -- final FP22 add (tree + C bias)
  conv_valid : Bool
  conv_fp22 : Nat
  c_bias : Nat                  -- sideband, never read by the C code
  rm : RoundingMode
  output_prec : PrecisionType
  l0a0 : Nat
  l0a1 : Nat
  l0a2 : Nat
  l0a3 : Nat
  l0b0 : Nat
  l0b1 : Nat
  l0b2 : Nat
  l0b3 : Nat
  l0v0 : Bool
  l0v1 : Bool
  l0v2 : Bool
  l0v3 : Bool
  l1a0 : Nat
  l1a1 : Nat
  l1b0 : Nat
  l1b1 : Nat
  l1v0 : Bool
  l1v1 : Bool
  l2a : Nat
  l2b : Nat
  l2v : Bool
  fa_a : Nat
  fa_b : Nat
  fa_v : Bool
deriving Repr, DecidableEq

/-- `DotProductPipeline::reset` from tensor_core_sim.h: clears every valid
flag; data registers keep their contents, as in the C code. -/
def DotProductPipeline.resetDP (p : DotProductPipeline) : DotProductPipeline :=
  { p with
    mp0 := p.mp0.resetStage, mp1 := p.mp1.resetStage, mp2 := p.mp2.resetStage
    mp3 := p.mp3.resetStage, mp4 := p.mp4.resetStage, mp5 := p.mp5.resetStage
    mp6 := p.mp6.resetStage, mp7 := p.mp7.resetStage
    mrv0 := false, mrv1 := false, mrv2 := false, mrv3 := false
    mrv4 := false, mrv5 := false, mrv6 := false, mrv7 := false
    aL0_0 := p.aL0_0.resetStage, aL0_1 := p.aL0_1.resetStage
    aL0_2 := p.aL0_2.resetStage, aL0_3 := p.aL0_3.resetStage
    l0v0 := false, l0v1 := false, l0v2 := false, l0v3 := false
    aL1_0 := p.aL1_0.resetStage, aL1_1 := p.aL1_1.resetStage
    l1v0 := false, l1v1 := false
    aL2 := p.aL2.resetStage, l2v := false
    fadd := p.fadd.resetStage, fa_v := false
    conv_valid := false }

/-- One iteration of the "Stages 3-4 / 5-6 / 7-8" adder-tree blocks of
`tick_dot_product` (tensor_core_sim.h): latch the pair of source outputs
when both are ready and the latch is free, tick the 2-stage adder pipe
(stage 2 performs `fp9_add` against the latched B operand), then clear the
latch when the pipe accepted it.  Returns the new pipe, latched A/B,
latch-valid, and the `consumed` signal (used by level 0 to clear the
multiplier result flags). -/
def treeAddStep (simRm : RoundingMode) (ready : Bool) (src0v src1v : Bool)
    (src0d src1d : Nat) (pipe : PipeStage2 FP9Token) (av bv : Nat) (iv : Bool) :
    PipeStage2 FP9Token × Nat × Nat × Bool × Bool :=
  let in_valid := src0v && src1v && !iv
  let av1 := cond in_valid src0d av
  let bv1 := cond in_valid src1d bv
  let iv1 := cond in_valid true iv
  let pipe1 := pipe.tick iv1 ⟨av1⟩ ready
      (fun t => t) (fun t => ⟨fp9_add t.value bv1 simRm⟩)
  let consumed := pipe1.in_ready ready && iv1
  let iv2 := cond consumed false iv1
  (pipe1, av1, bv1, iv2, consumed)

/-- One iteration of the "Stages 1-2" multiplier block of
`tick_dot_product` (tensor_core_sim.h) for multiplier `k`: feed the static
`(A[i][k], B[k][j])` pair whenever the result buffer slot is free, tick the
2-stage pipe (stage 2 computes `fmul_s2`/`fmul_s3` and smuggles the packed
result through `s1.shift_amt`, as the source does), then capture the output
into the result buffer. -/
def mulStep (simRm : RoundingMode) (loaded : Bool) (aik bkj : Nat)
    (pipe : PipeStage2 MulStage1Data) (mr : Nat) (mrv : Bool) :
    PipeStage2 MulStage1Data × Nat × Bool :=
  let out_ready := !mrv
  let in_valid := loaded && !mrv
  let mulIn : MulStage1Data :=
    { a_bits := aik, b_bits := bkj, s1 := fmul_s1 aik bkj 5 4 simRm }
  let pipe1 := pipe.tick in_valid mulIn out_ready
      (fun inn => inn)
      (fun inn =>
        { inn with s1 := { inn.s1 with
            shift_amt :=
              ((fmul_s3 (fmul_s2 inn.a_bits inn.b_bits 5 4 inn.s1) 5 4 : Nat) : Int) } })
  let fire := pipe1.out_valid && !mrv
  let mr1 := cond fire (Int.land pipe1.out_data.s1.shift_amt 0x1FF).toNat mr
  let mrv1 := cond fire true mrv
  (pipe1, mr1, mrv1)

/-- One output cell of the simulator: the cell's pipeline plus its
`d_valid[i][j]` / `d_fp22[i][j]` entries (the only elements of the
`TensorCoreSim` output arrays that `tick_dot_product(i,j)` touches). -/
structure DPCell where
  p : DotProductPipeline
  dv : Bool
  dfp : Nat
deriving Repr, DecidableEq

/-- `TensorCoreSim::tick_dot_product` from tensor_core_sim.h as a pure
function on one cell.  Blocks appear in the source's reverse-stage order;
every `let` reads exactly the values the sequential C code would see at
that point (in particular, ready signals are computed from the
already-ticked downstream stage, as in the source). -/
def tick_cell (simRm : RoundingMode) (simPrec : PrecisionType) (loaded : Bool)
    (aRow bCol : Fin 8 → Nat) (cij : Nat) (cell : DPCell) : DPCell :=
  let p := cell.p
  -- Stage 11: output conversion latch (publishes d_fp22/d_valid once)
  let conv_out_ready := true
  let fire := p.fadd.out_valid && !p.conv_valid
  let conv_valid1 := cond fire true p.conv_valid
  let conv_fp221 := cond fire p.fadd.out_data.value p.conv_fp22
  let dfp1 := cond fire p.fadd.out_data.value cell.dfp
  let dv1 := cond fire true cell.dv
  -- Stages 9-10: final FP22 add (tree result + C bias)
  let final_out_ready := !conv_valid1 || conv_out_ready
  let final_in_valid := p.aL2.out_valid && !p.fa_v
  let fa_a1 := cond final_in_valid (fp9_to_fp22 p.aL2.out_data.value) p.fa_a
  let fa_b1 := cond final_in_valid cij p.fa_b
  let fa_v1 := cond final_in_valid true p.fa_v
  let fadd1 := p.fadd.tick fa_v1 ⟨fa_a1⟩ final_out_ready
      (fun t => t) (fun t => ⟨fp22_add t.value fa_b1 simRm⟩)
  let fa_v2 := cond (fadd1.in_ready final_out_ready && fa_v1) false fa_v1
  -- Stages 7-8: adder tree level 2
  let l2_out_ready := fadd1.in_ready final_out_ready
  let l2r := treeAddStep simRm l2_out_ready p.aL1_0.out_valid p.aL1_1.out_valid
      p.aL1_0.out_data.value p.aL1_1.out_data.value p.aL2 p.l2a p.l2b p.l2v
  let aL2n := l2r.1
  -- Stages 5-6: adder tree level 1 (both iterations; disjoint state)
  let l1_out_ready := aL2n.in_ready l2_out_ready
  let l1r0 := treeAddStep simRm l1_out_ready p.aL0_0.out_valid p.aL0_1.out_valid
      p.aL0_0.out_data.value p.aL0_1.out_data.value p.aL1_0 p.l1a0 p.l1b0 p.l1v0
  let l1r1 := treeAddStep simRm l1_out_ready p.aL0_2.out_valid p.aL0_3.out_valid
      p.aL0_2.out_data.value p.aL0_3.out_data.value p.aL1_1 p.l1a1 p.l1b1 p.l1v1
  let aL1_0n := l1r0.1
  let aL1_1n := l1r1.1
  -- Stages 3-4: adder tree level 0 (pairs (0,4),(1,5),(2,6),(3,7))
  let l0_out_ready01 := aL1_0n.in_ready l1_out_ready
  let l0_out_ready23 := aL1_1n.in_ready l1_out_ready
  let l0r0 := treeAddStep simRm l0_out_ready01 p.mrv0 p.mrv4 p.mr0 p.mr4
      p.aL0_0 p.l0a0 p.l0b0 p.l0v0
  let l0r1 := treeAddStep simRm l0_out_ready01 p.mrv1 p.mrv5 p.mr1 p.mr5
      p.aL0_1 p.l0a1 p.l0b1 p.l0v1
  let l0r2 := treeAddStep simRm l0_out_ready23 p.mrv2 p.mrv6 p.mr2 p.mr6
      p.aL0_2 p.l0a2 p.l0b2 p.l0v2
  let l0r3 := treeAddStep simRm l0_out_ready23 p.mrv3 p.mrv7 p.mr3 p.mr7
      p.aL0_3 p.l0a3 p.l0b3 p.l0v3
  let cons0 := l0r0.2.2.2.2
  let cons1 := l0r1.2.2.2.2
  let cons2 := l0r2.2.2.2.2
  let cons3 := l0r3.2.2.2.2
  -- when level 0 consumed its pair, both multiplier result flags clear
  let mrvA0 := cond cons0 false p.mrv0
  let mrvA1 := cond cons1 false p.mrv1
  let mrvA2 := cond cons2 false p.mrv2
  let mrvA3 := cond cons3 false p.mrv3
  let mrvA4 := cond cons0 false p.mrv4
  let mrvA5 := cond cons1 false p.mrv5
  let mrvA6 := cond cons2 false p.mrv6
  let mrvA7 := cond cons3 false p.mrv7
  -- Stages 1-2: the 8 multipliers (iterations touch disjoint state)
  let m0 := mulStep simRm loaded (aRow 0) (bCol 0) p.mp0 p.mr0 mrvA0
  let m1 := mulStep simRm loaded (aRow 1) (bCol 1) p.mp1 p.mr1 mrvA1
  let m2 := mulStep simRm loaded (aRow 2) (bCol 2) p.mp2 p.mr2 mrvA2
  let m3 := mulStep simRm loaded (aRow 3) (bCol 3) p.mp3 p.mr3 mrvA3
  let m4 := mulStep simRm loaded (aRow 4) (bCol 4) p.mp4 p.mr4 mrvA4
  let m5 := mulStep simRm loaded (aRow 5) (bCol 5) p.mp5 p.mr5 mrvA5
  let m6 := mulStep simRm loaded (aRow 6) (bCol 6) p.mp6 p.mr6 mrvA6
  let m7 := mulStep simRm loaded (aRow 7) (bCol 7) p.mp7 p.mr7 mrvA7
  { p :=
    { mp0 := m0.1, mp1 := m1.1, mp2 := m2.1, mp3 := m3.1
      mp4 := m4.1, mp5 := m5.1, mp6 := m6.1, mp7 := m7.1
      mr0 := m0.2.1, mr1 := m1.2.1, mr2 := m2.2.1, mr3 := m3.2.1
      mr4 := m4.2.1, mr5 := m5.2.1, mr6 := m6.2.1, mr7 := m7.2.1
      mrv0 := m0.2.2, mrv1 := m1.2.2, mrv2 := m2.2.2, mrv3 := m3.2.2
      mrv4 := m4.2.2, mrv5 := m5.2.2, mrv6 := m6.2.2, mrv7 := m7.2.2
      aL0_0 := l0r0.1, aL0_1 := l0r1.1, aL0_2 := l0r2.1, aL0_3 := l0r3.1
      l0a0 := l0r0.2.1, l0a1 := l0r1.2.1, l0a2 := l0r2.2.1, l0a3 := l0r3.2.1
      l0b0 := l0r0.2.2.1, l0b1 := l0r1.2.2.1, l0b2 := l0r2.2.2.1, l0b3 := l0r3.2.2.1
      l0v0 := l0r0.2.2.2.1, l0v1 := l0r1.2.2.2.1
      l0v2 := l0r2.2.2.2.1, l0v3 := l0r3.2.2.2.1
      aL1_0 := aL1_0n, aL1_1 := aL1_1n
      l1a0 := l1r0.2.1, l1a1 := l1r1.2.1
      l1b0 := l1r0.2.2.1, l1b1 := l1r1.2.2.1
      l1v0 := l1r0.2.2.2.1, l1v1 := l1r1.2.2.2.1
      aL2 := aL2n, l2a := l2r.2.1, l2b := l2r.2.2.1, l2v := l2r.2.2.2.1
      fadd := fadd1, fa_a := fa_a1, fa_b := fa_b1, fa_v := fa_v2
      conv_valid := conv_valid1, conv_fp22 := conv_fp221
      c_bias := p.c_bias, rm := simRm, output_prec := simPrec }
    dv := dv1
    dfp := dfp1 }

-- ─────────────────────────────────────────────────────────────
-- Top-level tensor core simulator (tensor_core_sim.h, TensorCoreSim)
-- ─────────────────────────────────────────────────────────────

/-- `TensorCoreSim` from tensor_core_sim.h (M = K = N = 8).  The per-cell
state `dp[i][j]` is bundled with the cell's `d_valid[i][j]` and
`d_fp22[i][j]` entries in `cells i j` — `tick_dot_product(i,j)` touches
exactly this triple and nothing else of the mutable state. -/
structure TensorCoreSim where
  cells : Fin 8 → Fin 8 → DPCell
  input_prec : PrecisionType
  output_prec : PrecisionType
  rm : RoundingMode
  a_fp9 : Fin 8 → Fin 8 → Nat
  b_fp9 : Fin 8 → Fin 8 → Nat
  c_fp22 : Fin 8 → Fin 8 → Nat
  input_loaded : Bool
  output_ready : Bool
  cycle_count : Int
  total_cycles : Int
  jobs_completed : Int

/-- `PIPELINE_DEPTH` from tensor_core_sim.h. -/
def PIPELINE_DEPTH : Nat := 11

/-- The output matrix `d_fp22[i][j]`. -/
def TensorCoreSim.d_fp22 (s : TensorCoreSim) (i j : Fin 8) : Nat := (s.cells i j).dfp

/-- The output valid matrix `d_valid[i][j]`. -/
def TensorCoreSim.d_valid (s : TensorCoreSim) (i j : Fin 8) : Bool := (s.cells i j).dv

/-- `TensorCoreSim::tick` from tensor_core_sim.h: advances every cell by
one cycle.  Each `tick_dot_product(i,j)` call in the C loop touches only
its own cell and reads only shared read-only state, so the double loop is
rendered pointwise. -/
def TensorCoreSim.tick (s : TensorCoreSim) : TensorCoreSim :=
  { s with
    cycle_count := s.cycle_count + 1
    cells := fun i j =>
      tick_cell s.rm s.output_prec s.input_loaded
        (fun k => s.a_fp9 i k) (fun k => s.b_fp9 k j) (s.c_fp22 i j)
        (s.cells i j) }

/-- `TensorCoreSim::reset` from tensor_core_sim.h. -/
def TensorCoreSim.reset (s : TensorCoreSim) : TensorCoreSim :=
  { s with
    cells := fun i j => { s.cells i j with p := (s.cells i j).p.resetDP, dv := false }
    input_loaded := false
    cycle_count := 0
    total_cycles := 0
    jobs_completed := 0 }

/-- `TensorCoreSim::load_inputs` from tensor_core_sim.h (the element-wise
copy loops become function assignment; `d_valid` is cleared cell-wise). -/
def TensorCoreSim.load_inputs (s : TensorCoreSim)
    (a b c : Fin 8 → Fin 8 → Nat) (prec : PrecisionType)
    (r : RoundingMode) : TensorCoreSim :=
  { s with
    input_prec := prec
    output_prec := prec
    rm := r
    a_fp9 := a
    b_fp9 := b
    c_fp22 := c
    cells := fun i j => { s.cells i j with dv := false }
    input_loaded := true }

/-- The `all_done` scan inside `run_to_completion`. -/
def TensorCoreSim.allDone (s : TensorCoreSim) : Bool :=
  (List.finRange 8).all fun i => (List.finRange 8).all fun j => s.d_valid i j

/-- The `while (!all_done && cycles < 100)` loop of `run_to_completion`,
with the remaining iteration budget as fuel. -/
def TensorCoreSim.rtcGo : Nat → Nat → TensorCoreSim → Nat × TensorCoreSim
  | 0, cycles, s => (cycles, s)
  | fuel + 1, cycles, s =>
    let s1 := s.tick
    let cycles1 := cycles + 1
    if s1.allDone then (cycles1, s1) else TensorCoreSim.rtcGo fuel cycles1 s1

/-- `TensorCoreSim::run_to_completion` from tensor_core_sim.h: ticks until
every output cell is valid (or the 100-cycle cap is hit), then updates the
statistics and clears `input_loaded`; returns the cycle count and the
final state. -/
def TensorCoreSim.run_to_completion (s : TensorCoreSim) : Nat × TensorCoreSim :=
  if !s.input_loaded then (0, s)
  else
    let r := TensorCoreSim.rtcGo 100 0 s
    (r.1, { r.2 with
      total_cycles := r.2.total_cycles + r.1
      jobs_completed := r.2.jobs_completed + 1
      input_loaded := false })

-- Power-on state: every register zeroed, every valid flag clear.  (The C
-- leaves some data members uninitialized; all theorems go through
-- `reset`/`load_inputs`, which clear every flag the control logic reads.)

def mulData0 : MulStage1Data := { s1 := {}, a_bits := 0, b_bits := 0 }

def pipe0 {α : Type} (d : α) : PipeStage2 α :=
  { data1 := d, data2 := d, valid1 := false, valid2 := false }

def dp0 : DotProductPipeline :=
  { mp0 := pipe0 mulData0, mp1 := pipe0 mulData0, mp2 := pipe0 mulData0
    mp3 := pipe0 mulData0, mp4 := pipe0 mulData0, mp5 := pipe0 mulData0
    mp6 := pipe0 mulData0, mp7 := pipe0 mulData0
    mr0 := 0, mr1 := 0, mr2 := 0, mr3 := 0, mr4 := 0, mr5 := 0, mr6 := 0, mr7 := 0
    mrv0 := false, mrv1 := false, mrv2 := false, mrv3 := false
    mrv4 := false, mrv5 := false, mrv6 := false, mrv7 := false
    aL0_0 := pipe0 ⟨0⟩, aL0_1 := pipe0 ⟨0⟩, aL0_2 := pipe0 ⟨0⟩, aL0_3 := pipe0 ⟨0⟩
    aL1_0 := pipe0 ⟨0⟩, aL1_1 := pipe0 ⟨0⟩
    aL2 := pipe0 ⟨0⟩
    fadd := pipe0 ⟨0⟩
    conv_valid := false, conv_fp22 := 0, c_bias := 0
    rm := RNE, output_prec := PrecisionType.PREC_FP8_E4M3
    l0a0 := 0, l0a1 := 0, l0a2 := 0, l0a3 := 0
    l0b0 := 0, l0b1 := 0, l0b2 := 0, l0b3 := 0
    l0v0 := false, l0v1 := false, l0v2 := false, l0v3 := false
    l1a0 := 0, l1a1 := 0, l1b0 := 0, l1b1 := 0
    l1v0 := false, l1v1 := false
    l2a := 0, l2b := 0, l2v := false
    fa_a := 0, fa_b := 0, fa_v := false }

def sim0 : TensorCoreSim :=
  { cells := fun _ _ => { p := dp0, dv := false, dfp := 0 }
    input_prec := PrecisionType.PREC_FP8_E4M3
    output_prec := PrecisionType.PREC_FP8_E4M3
    rm := RNE
    a_fp9 := fun _ _ => 0
    b_fp9 := fun _ _ => 0
    c_fp22 := fun _ _ => 0
    input_loaded := false
    output_ready := true
    cycle_count := 0
    total_cycles := 0
    jobs_completed := 0 }

-- ─────────────────────────────────────────────────────────────
-- Reference models (tensor_core_sim.h, reference_matmul)
-- ─────────────────────────────────────────────────────────────

/-- `reference_matmul` from tensor_core_sim.h: the non-pipelined
composition of `fp9_multiply`, the (k, k+4) add tree, `fp9_to_fp22` and
`fp22_add` (loops unrolled). -/
def reference_matmul (a b c : Fin 8 → Fin 8 → Nat) (rm : RoundingMode)
    (i j : Fin 8) : Nat :=
  let p0 := fp9_multiply (a i 0) (b 0 j) rm
  let p1 := fp9_multiply (a i 1) (b 1 j) rm
  let p2 := fp9_multiply (a i 2) (b 2 j) rm
  let p3 := fp9_multiply (a i 3) (b 3 j) rm
  let p4 := fp9_multiply (a i 4) (b 4 j) rm
  let p5 := fp9_multiply (a i 5) (b 5 j) rm
  let p6 := fp9_multiply (a i 6) (b 6 j) rm
  let p7 := fp9_multiply (a i 7) (b 7 j) rm
  let s00 := fp9_add p0 p4 rm
  let s01 := fp9_add p1 p5 rm
  let s02 := fp9_add p2 p6 rm
  let s03 := fp9_add p3 p7 rm
  let s10 := fp9_add s00 s01 rm
  let s11 := fp9_add s02 s03 rm
  let s2 := fp9_add s10 s11 rm
  fp22_add (fp9_to_fp22 s2) (c i j) rm

/-- The reference composition with the product primitive replaced by the
three-phase multiplier the pipeline actually evaluates: the pipeline
captures `(uint16_t)(fmul_s3(fmul_s2(a, b, s1(a, b, rm))) & 0x1FF)` per
multiplier, i.e. `fp_multiply a b 5 4 rm &&& 0x1FF`.  Everything else is
exactly `reference_matmul`. -/
def reference_matmul_pipe_mul (a b c : Fin 8 → Fin 8 → Nat) (rm : RoundingMode)
    (i j : Fin 8) : Nat :=
  let p0 := fp_multiply (a i 0) (b 0 j) 5 4 rm &&& 0x1FF
  let p1 := fp_multiply (a i 1) (b 1 j) 5 4 rm &&& 0x1FF
  let p2 := fp_multiply (a i 2) (b 2 j) 5 4 rm &&& 0x1FF
  let p3 := fp_multiply (a i 3) (b 3 j) 5 4 rm &&& 0x1FF
  let p4 := fp_multiply (a i 4) (b 4 j) 5 4 rm &&& 0x1FF
  let p5 := fp_multiply (a i 5) (b 5 j) 5 4 rm &&& 0x1FF
  let p6 := fp_multiply (a i 6) (b 6 j) 5 4 rm &&& 0x1FF
  let p7 := fp_multiply (a i 7) (b 7 j) 5 4 rm &&& 0x1FF
  let s00 := fp9_add p0 p4 rm
  let s01 := fp9_add p1 p5 rm
  let s02 := fp9_add p2 p6 rm
  let s03 := fp9_add p3 p7 rm
  let s10 := fp9_add s00 s01 rm
  let s11 := fp9_add s02 s03 rm
  let s2 := fp9_add s10 s11 rm
  fp22_add (fp9_to_fp22 s2) (c i j) rm

-- ─────────────────────────────────────────────────────────────
-- Symbolic cycle-by-cycle closed forms of one dot-product cell.
-- The valid/ready control of the pipeline is data-independent, so the
-- state of a cell after each tick of a freshly loaded job is an explicit
-- function of the cell's input slice.  `cellStage t` below is the state
-- after `t` ticks; each step is checked definitionally.
-- ─────────────────────────────────────────────────────────────

/-- The multiplier input token `mul_in` built every tick by the stage-1/2
block of `tick_dot_product`. -/
def mulT (rm : RoundingMode) (a b : Nat) : MulStage1Data :=
  { a_bits := a, b_bits := b, s1 := fmul_s1 a b 5 4 rm }

/-- The multiplier stage-2 register contents: the input token with the
packed `fmul_s3` result smuggled through `s1.shift_amt`. -/
def mulT2 (rm : RoundingMode) (a b : Nat) : MulStage1Data :=
  { mulT rm a b with s1 := { (mulT rm a b).s1 with
      shift_amt :=
        ((fmul_s3 (fmul_s2 (mulT rm a b).a_bits (mulT rm a b).b_bits 5 4
            (mulT rm a b).s1) 5 4 : Nat) : Int) } }

/-- The captured multiplier result `(uint16_t)(… & 0x1FF)`. -/
def mval (rm : RoundingMode) (a b : Nat) : Nat :=
  (Int.land (mulT2 rm a b).s1.shift_amt 0x1FF).toNat

def sv0 (rm : RoundingMode) (aRow bCol : Fin 8 → Nat) : Nat :=
  fp9_add (mval rm (aRow 0) (bCol 0)) (mval rm (aRow 4) (bCol 4)) rm
def sv1 (rm : RoundingMode) (aRow bCol : Fin 8 → Nat) : Nat :=
  fp9_add (mval rm (aRow 1) (bCol 1)) (mval rm (aRow 5) (bCol 5)) rm
def sv2 (rm : RoundingMode) (aRow bCol : Fin 8 → Nat) : Nat :=
  fp9_add (mval rm (aRow 2) (bCol 2)) (mval rm (aRow 6) (bCol 6)) rm
def sv3 (rm : RoundingMode) (aRow bCol : Fin 8 → Nat) : Nat :=
  fp9_add (mval rm (aRow 3) (bCol 3)) (mval rm (aRow 7) (bCol 7)) rm
def tv0 (rm : RoundingMode) (aRow bCol : Fin 8 → Nat) : Nat :=
  fp9_add (sv0 rm aRow bCol) (sv1 rm aRow bCol) rm
def tv1 (rm : RoundingMode) (aRow bCol : Fin 8 → Nat) : Nat :=
  fp9_add (sv2 rm aRow bCol) (sv3 rm aRow bCol) rm
def uv (rm : RoundingMode) (aRow bCol : Fin 8 → Nat) : Nat :=
  fp9_add (tv0 rm aRow bCol) (tv1 rm aRow bCol) rm
def vval (rm : RoundingMode) (aRow bCol : Fin 8 → Nat) (cij : Nat) : Nat :=
  fp22_add (fp9_to_fp22 (uv rm aRow bCol)) cij rm

def cellStage0 : DPCell := { p := dp0.resetDP, dv := false, dfp := 0 }

def cellStage1 (rm : RoundingMode) (prec : PrecisionType) (aRow bCol : Fin 8 → Nat)
    (_cij : Nat) : DPCell :=
  { p := { dp0.resetDP with
      mp0 := { data1 := mulT rm (aRow 0) (bCol 0), data2 := mulData0, valid1 := true, valid2 := false }
      mp1 := { data1 := mulT rm (aRow 1) (bCol 1), data2 := mulData0, valid1 := true, valid2 := false }
      mp2 := { data1 := mulT rm (aRow 2) (bCol 2), data2 := mulData0, valid1 := true, valid2 := false }
      mp3 := { data1 := mulT rm (aRow 3) (bCol 3), data2 := mulData0, valid1 := true, valid2 := false }
      mp4 := { data1 := mulT rm (aRow 4) (bCol 4), data2 := mulData0, valid1 := true, valid2 := false }
      mp5 := { data1 := mulT rm (aRow 5) (bCol 5), data2 := mulData0, valid1 := true, valid2 := false }
      mp6 := { data1 := mulT rm (aRow 6) (bCol 6), data2 := mulData0, valid1 := true, valid2 := false }
      mp7 := { data1 := mulT rm (aRow 7) (bCol 7), data2 := mulData0, valid1 := true, valid2 := false }
      rm := rm, output_prec := prec }
    dv := false, dfp := 0 }

def cellStage2 (rm : RoundingMode) (prec : PrecisionType) (aRow bCol : Fin 8 → Nat)
    (cij : Nat) : DPCell :=
  { cellStage1 rm prec aRow bCol cij with p :=
    { (cellStage1 rm prec aRow bCol cij).p with
      mp0 := { data1 := mulT rm (aRow 0) (bCol 0), data2 := mulT2 rm (aRow 0) (bCol 0), valid1 := true, valid2 := true }
      mp1 := { data1 := mulT rm (aRow 1) (bCol 1), data2 := mulT2 rm (aRow 1) (bCol 1), valid1 := true, valid2 := true }
      mp2 := { data1 := mulT rm (aRow 2) (bCol 2), data2 := mulT2 rm (aRow 2) (bCol 2), valid1 := true, valid2 := true }
      mp3 := { data1 := mulT rm (aRow 3) (bCol 3), data2 := mulT2 rm (aRow 3) (bCol 3), valid1 := true, valid2 := true }
      mp4 := { data1 := mulT rm (aRow 4) (bCol 4), data2 := mulT2 rm (aRow 4) (bCol 4), valid1 := true, valid2 := true }
      mp5 := { data1 := mulT rm (aRow 5) (bCol 5), data2 := mulT2 rm (aRow 5) (bCol 5), valid1 := true, valid2 := true }
      mp6 := { data1 := mulT rm (aRow 6) (bCol 6), data2 := mulT2 rm (aRow 6) (bCol 6), valid1 := true, valid2 := true }
      mp7 := { data1 := mulT rm (aRow 7) (bCol 7), data2 := mulT2 rm (aRow 7) (bCol 7), valid1 := true, valid2 := true }
      mr0 := mval rm (aRow 0) (bCol 0), mr1 := mval rm (aRow 1) (bCol 1)
      mr2 := mval rm (aRow 2) (bCol 2), mr3 := mval rm (aRow 3) (bCol 3)
      mr4 := mval rm (aRow 4) (bCol 4), mr5 := mval rm (aRow 5) (bCol 5)
      mr6 := mval rm (aRow 6) (bCol 6), mr7 := mval rm (aRow 7) (bCol 7)
      mrv0 := true, mrv1 := true, mrv2 := true, mrv3 := true
      mrv4 := true, mrv5 := true, mrv6 := true, mrv7 := true } }

def cellStage3 (rm : RoundingMode) (prec : PrecisionType) (aRow bCol : Fin 8 → Nat)
    (cij : Nat) : DPCell :=
  { cellStage2 rm prec aRow bCol cij with p :=
    { (cellStage2 rm prec aRow bCol cij).p with
      aL0_0 := { data1 := ⟨mval rm (aRow 0) (bCol 0)⟩, data2 := ⟨0⟩, valid1 := true, valid2 := false }
      aL0_1 := { data1 := ⟨mval rm (aRow 1) (bCol 1)⟩, data2 := ⟨0⟩, valid1 := true, valid2 := false }
      aL0_2 := { data1 := ⟨mval rm (aRow 2) (bCol 2)⟩, data2 := ⟨0⟩, valid1 := true, valid2 := false }
      aL0_3 := { data1 := ⟨mval rm (aRow 3) (bCol 3)⟩, data2 := ⟨0⟩, valid1 := true, valid2 := false }
      l0a0 := mval rm (aRow 0) (bCol 0), l0a1 := mval rm (aRow 1) (bCol 1)
      l0a2 := mval rm (aRow 2) (bCol 2), l0a3 := mval rm (aRow 3) (bCol 3)
      l0b0 := mval rm (aRow 4) (bCol 4), l0b1 := mval rm (aRow 5) (bCol 5)
      l0b2 := mval rm (aRow 6) (bCol 6), l0b3 := mval rm (aRow 7) (bCol 7) } }

def cellStage4 (rm : RoundingMode) (prec : PrecisionType) (aRow bCol : Fin 8 → Nat)
    (cij : Nat) : DPCell :=
  { cellStage3 rm prec aRow bCol cij with p :=
    { (cellStage3 rm prec aRow bCol cij).p with
      aL0_0 := { data1 := ⟨mval rm (aRow 0) (bCol 0)⟩, data2 := ⟨sv0 rm aRow bCol⟩, valid1 := true, valid2 := true }
      aL0_1 := { data1 := ⟨mval rm (aRow 1) (bCol 1)⟩, data2 := ⟨sv1 rm aRow bCol⟩, valid1 := true, valid2 := true }
      aL0_2 := { data1 := ⟨mval rm (aRow 2) (bCol 2)⟩, data2 := ⟨sv2 rm aRow bCol⟩, valid1 := true, valid2 := true }
      aL0_3 := { data1 := ⟨mval rm (aRow 3) (bCol 3)⟩, data2 := ⟨sv3 rm aRow bCol⟩, valid1 := true, valid2 := true } } }

def cellStage5 (rm : RoundingMode) (prec : PrecisionType) (aRow bCol : Fin 8 → Nat)
    (cij : Nat) : DPCell :=
  { cellStage4 rm prec aRow bCol cij with p :=
    { (cellStage4 rm prec aRow bCol cij).p with
      aL1_0 := { data1 := ⟨sv0 rm aRow bCol⟩, data2 := ⟨0⟩, valid1 := true, valid2 := false }
      aL1_1 := { data1 := ⟨sv2 rm aRow bCol⟩, data2 := ⟨0⟩, valid1 := true, valid2 := false }
      l1a0 := sv0 rm aRow bCol, l1b0 := sv1 rm aRow bCol
      l1a1 := sv2 rm aRow bCol, l1b1 := sv3 rm aRow bCol } }

def cellStage6 (rm : RoundingMode) (prec : PrecisionType) (aRow bCol : Fin 8 → Nat)
    (cij : Nat) : DPCell :=
  { cellStage5 rm prec aRow bCol cij with p :=
    { (cellStage5 rm prec aRow bCol cij).p with
      aL1_0 := { data1 := ⟨sv0 rm aRow bCol⟩, data2 := ⟨tv0 rm aRow bCol⟩, valid1 := true, valid2 := true }
      aL1_1 := { data1 := ⟨sv2 rm aRow bCol⟩, data2 := ⟨tv1 rm aRow bCol⟩, valid1 := true, valid2 := true } } }

def cellStage7 (rm : RoundingMode) (prec : PrecisionType) (aRow bCol : Fin 8 → Nat)
    (cij : Nat) : DPCell :=
  { cellStage6 rm prec aRow bCol cij with p :=
    { (cellStage6 rm prec aRow bCol cij).p with
      aL2 := { data1 := ⟨tv0 rm aRow bCol⟩, data2 := ⟨0⟩, valid1 := true, valid2 := false }
      l2a := tv0 rm aRow bCol, l2b := tv1 rm aRow bCol } }

def cellStage8 (rm : RoundingMode) (prec : PrecisionType) (aRow bCol : Fin 8 → Nat)
    (cij : Nat) : DPCell :=
  { cellStage7 rm prec aRow bCol cij with p :=
    { (cellStage7 rm prec aRow bCol cij).p with
      aL2 := { data1 := ⟨tv0 rm aRow bCol⟩, data2 := ⟨uv rm aRow bCol⟩, valid1 := true, valid2 := true } } }

def cellStage9 (rm : RoundingMode) (prec : PrecisionType) (aRow bCol : Fin 8 → Nat)
    (cij : Nat) : DPCell :=
  { cellStage8 rm prec aRow bCol cij with p :=
    { (cellStage8 rm prec aRow bCol cij).p with
      fadd := { data1 := ⟨fp9_to_fp22 (uv rm aRow bCol)⟩, data2 := ⟨0⟩, valid1 := true, valid2 := false }
      fa_a := fp9_to_fp22 (uv rm aRow bCol), fa_b := cij } }

def cellStage10 (rm : RoundingMode) (prec : PrecisionType) (aRow bCol : Fin 8 → Nat)
    (cij : Nat) : DPCell :=
  { cellStage9 rm prec aRow bCol cij with p :=
    { (cellStage9 rm prec aRow bCol cij).p with
      fadd := { data1 := ⟨fp9_to_fp22 (uv rm aRow bCol)⟩, data2 := ⟨vval rm aRow bCol cij⟩, valid1 := true, valid2 := true } } }

def cellStage11 (rm : RoundingMode) (prec : PrecisionType) (aRow bCol : Fin 8 → Nat)
    (cij : Nat) : DPCell :=
  { cellStage10 rm prec aRow bCol cij with
    p := { (cellStage10 rm prec aRow bCol cij).p with
      conv_valid := true, conv_fp22 := vval rm aRow bCol cij }
    dv := true
    dfp := vval rm aRow bCol cij }

/-- The simulator state after loading a job and ticking `t` times: the
shared configuration plus each cell at its per-cell closed form. -/
def simWith (a b c : Fin 8 → Fin 8 → Nat) (prec : PrecisionType) (rm : RoundingMode)
    (t : Int)
    (f : RoundingMode → PrecisionType → (Fin 8 → Nat) → (Fin 8 → Nat) → Nat → DPCell) :
    TensorCoreSim :=
  { cells := fun i j => f rm prec (fun k => a i k) (fun k => b k j) (c i j)
    input_prec := prec
    output_prec := prec
    rm := rm
    a_fp9 := a
    b_fp9 := b
    c_fp22 := c
    input_loaded := true
    output_ready := true
    cycle_count := t
    total_cycles := 0
    jobs_completed := 0 }

def stage0f : RoundingMode → PrecisionType → (Fin 8 → Nat) → (Fin 8 → Nat) → Nat → DPCell :=
  fun _ _ _ _ _ => cellStage0

section PipelineSchedule

set_option maxRecDepth 2000000
set_option maxHeartbeats 2000000

variable (a b c : Fin 8 → Fin 8 → Nat) (prec : PrecisionType) (rm : RoundingMode)

theorem simT_eq :
    (TensorCoreSim.reset sim0).load_inputs a b c prec rm
      = simWith a b c prec rm 0 stage0f := by rfl

theorem simStep1 :
    (simWith a b c prec rm 0 stage0f).tick
      = simWith a b c prec rm 1 cellStage1 := by rfl

theorem simStep2 :
    (simWith a b c prec rm 1 cellStage1).tick
      = simWith a b c prec rm 2 cellStage2 := by rfl

theorem simStep3 :
    (simWith a b c prec rm 2 cellStage2).tick
      = simWith a b c prec rm 3 cellStage3 := by rfl

theorem simStep4 :
    (simWith a b c prec rm 3 cellStage3).tick
      = simWith a b c prec rm 4 cellStage4 := by rfl

theorem simStep5 :
    (simWith a b c prec rm 4 cellStage4).tick
      = simWith a b c prec rm 5 cellStage5 := by rfl

theorem simStep6 :
    (simWith a b c prec rm 5 cellStage5).tick
      = simWith a b c prec rm 6 cellStage6 := by rfl

theorem simStep7 :
    (simWith a b c prec rm 6 cellStage6).tick
      = simWith a b c prec rm 7 cellStage7 := by rfl

theorem simStep8 :
    (simWith a b c prec rm 7 cellStage7).tick
      = simWith a b c prec rm 8 cellStage8 := by rfl

theorem simStep9 :
    (simWith a b c prec rm 8 cellStage8).tick
      = simWith a b c prec rm 9 cellStage9 := by rfl

theorem simStep10 :
    (simWith a b c prec rm 9 cellStage9).tick
      = simWith a b c prec rm 10 cellStage10 := by rfl

theorem simStep11 :
    (simWith a b c prec rm 10 cellStage10).tick
      = simWith a b c prec rm 11 cellStage11 := by rfl

end PipelineSchedule

section RunGlue

set_option maxRecDepth 2000000
set_option maxHeartbeats 2000000

variable (a b c : Fin 8 → Fin 8 → Nat) (prec : PrecisionType) (rm : RoundingMode)

theorem stageDone1 : (simWith a b c prec rm 1 cellStage1).allDone = false := by rfl
theorem stageDone2 : (simWith a b c prec rm 2 cellStage2).allDone = false := by rfl
theorem stageDone3 : (simWith a b c prec rm 3 cellStage3).allDone = false := by rfl
theorem stageDone4 : (simWith a b c prec rm 4 cellStage4).allDone = false := by rfl
theorem stageDone5 : (simWith a b c prec rm 5 cellStage5).allDone = false := by rfl
theorem stageDone6 : (simWith a b c prec rm 6 cellStage6).allDone = false := by rfl
theorem stageDone7 : (simWith a b c prec rm 7 cellStage7).allDone = false := by rfl
theorem stageDone8 : (simWith a b c prec rm 8 cellStage8).allDone = false := by rfl
theorem stageDone9 : (simWith a b c prec rm 9 cellStage9).allDone = false := by rfl
theorem stageDone10 : (simWith a b c prec rm 10 cellStage10).allDone = false := by rfl
theorem stageDone11 : (simWith a b c prec rm 11 cellStage11).allDone = true := by rfl

/-- One iteration of the `run_to_completion` loop while completion has not
been reached. -/
theorem rtcGo_more (fuel cycles : Nat) (s s1 : TensorCoreSim)
    (h : s.tick = s1) (hd : s1.allDone = false) :
    TensorCoreSim.rtcGo (fuel + 1) cycles s
      = TensorCoreSim.rtcGo fuel (cycles + 1) s1 := by
  have e : TensorCoreSim.rtcGo (fuel + 1) cycles s
      = if (s.tick).allDone then (cycles + 1, s.tick)
        else TensorCoreSim.rtcGo fuel (cycles + 1) s.tick := rfl
  rw [e, h, hd]
  simp

/-- The final iteration of the `run_to_completion` loop. -/
theorem rtcGo_done (fuel cycles : Nat) (s s1 : TensorCoreSim)
    (h : s.tick = s1) (hd : s1.allDone = true) :
    TensorCoreSim.rtcGo (fuel + 1) cycles s = (cycles + 1, s1) := by
  have e : TensorCoreSim.rtcGo (fuel + 1) cycles s
      = if (s.tick).allDone then (cycles + 1, s.tick)
        else TensorCoreSim.rtcGo fuel (cycles + 1) s.tick := rfl
  rw [e, h, hd]
  simp

theorem rtcChain :
    TensorCoreSim.rtcGo 100 0 (simWith a b c prec rm 0 stage0f)
      = (11, simWith a b c prec rm 11 cellStage11) :=
  calc TensorCoreSim.rtcGo 100 0 (simWith a b c prec rm 0 stage0f)
      = TensorCoreSim.rtcGo 99 1 (simWith a b c prec rm 1 cellStage1) :=
        rtcGo_more _ _ _ _ (simStep1 a b c prec rm) (stageDone1 a b c prec rm)
    _ = TensorCoreSim.rtcGo 98 2 (simWith a b c prec rm 2 cellStage2) :=
        rtcGo_more _ _ _ _ (simStep2 a b c prec rm) (stageDone2 a b c prec rm)
    _ = TensorCoreSim.rtcGo 97 3 (simWith a b c prec rm 3 cellStage3) :=
        rtcGo_more _ _ _ _ (simStep3 a b c prec rm) (stageDone3 a b c prec rm)
    _ = TensorCoreSim.rtcGo 96 4 (simWith a b c prec rm 4 cellStage4) :=
        rtcGo_more _ _ _ _ (simStep4 a b c prec rm) (stageDone4 a b c prec rm)
    _ = TensorCoreSim.rtcGo 95 5 (simWith a b c prec rm 5 cellStage5) :=
        rtcGo_more _ _ _ _ (simStep5 a b c prec rm) (stageDone5 a b c prec rm)
    _ = TensorCoreSim.rtcGo 94 6 (simWith a b c prec rm 6 cellStage6) :=
        rtcGo_more _ _ _ _ (simStep6 a b c prec rm) (stageDone6 a b c prec rm)
    _ = TensorCoreSim.rtcGo 93 7 (simWith a b c prec rm 7 cellStage7) :=
        rtcGo_more _ _ _ _ (simStep7 a b c prec rm) (stageDone7 a b c prec rm)
    _ = TensorCoreSim.rtcGo 92 8 (simWith a b c prec rm 8 cellStage8) :=
        rtcGo_more _ _ _ _ (simStep8 a b c prec rm) (stageDone8 a b c prec rm)
    _ = TensorCoreSim.rtcGo 91 9 (simWith a b c prec rm 9 cellStage9) :=
        rtcGo_more _ _ _ _ (simStep9 a b c prec rm) (stageDone9 a b c prec rm)
    _ = TensorCoreSim.rtcGo 90 10 (simWith a b c prec rm 10 cellStage10) :=
        rtcGo_more _ _ _ _ (simStep10 a b c prec rm) (stageDone10 a b c prec rm)
    _ = (11, simWith a b c prec rm 11 cellStage11) :=
        rtcGo_done _ _ _ _ (simStep11 a b c prec rm) (stageDone11 a b c prec rm)

/-- `run_to_completion` on a freshly loaded job: exactly 11 cycles, and
every cell ends at its closed form. -/
theorem runEq :
    ((TensorCoreSim.reset sim0).load_inputs a b c prec rm).run_to_completion
      = (11, { simWith a b c prec rm 11 cellStage11 with
                total_cycles := 11, jobs_completed := 1, input_loaded := false }) := by
  rw [simT_eq]
  have h0 : (simWith a b c prec rm 0 stage0f).run_to_completion
      = ((TensorCoreSim.rtcGo 100 0 (simWith a b c prec rm 0 stage0f)).1,
         { (TensorCoreSim.rtcGo 100 0 (simWith a b c prec rm 0 stage0f)).2 with
            total_cycles :=
              (TensorCoreSim.rtcGo 100 0 (simWith a b c prec rm 0 stage0f)).2.total_cycles
                + (TensorCoreSim.rtcGo 100 0 (simWith a b c prec rm 0 stage0f)).1
            jobs_completed :=
              (TensorCoreSim.rtcGo 100 0 (simWith a b c prec rm 0 stage0f)).2.jobs_completed + 1
            input_loaded := false }) := rfl
  rw [h0, rtcChain]
  rfl

end RunGlue

-- ─────────────────────────────────────────────────────────────
-- Claim C1 — pipelined vs reference model
-- ─────────────────────────────────────────────────────────────

/-- Counterexample input: `A[0][0] = 0x001` (the smallest FP9 subnormal),
`B[0][0] = 0x071` (0.5625), all other entries zero. -/
def aCex : Fin 8 → Fin 8 → Nat := fun i j => if i = 0 ∧ j = 0 then 0x001 else 0

def bCex : Fin 8 → Fin 8 → Nat := fun i j => if i = 0 ∧ j = 0 then 0x071 else 0

def zeroMat : Fin 8 → Fin 8 → Nat := fun _ _ => 0

section ClaimC1

set_option maxRecDepth 2000000
set_option maxHeartbeats 2000000

/-- Claim C1 (counterexample): already under RNE (and a fortiori not for
every rounding mode), the pipelined simulator and `reference_matmul`
disagree: with `A[0][0] = 0x001`, `B[0][0] = 0x071`, `C = 0` the pipelined
three-phase multiplier flushes the subnormal product to zero while the
reference's host-double product rounds it to the smallest subnormal, so
`d_fp22[0][0]` differs between the two models. -/
theorem pipeline_vs_reference_counterexample :
    (((TensorCoreSim.reset sim0).load_inputs aCex bCex zeroMat
        PrecisionType.PREC_FP8_E4M3 RNE).run_to_completion).2.d_fp22 0 0
      ≠ reference_matmul aCex bCex zeroMat RNE 0 0 := by decide

/-- Claim C1 (amended): for every loaded input set and every rounding
mode, the pipelined `d_fp22` produced by `run_to_completion` is
bit-identical, at every position, to the non-pipelined reference
composition in which the product primitive is the same three-phase
multiplier the pipeline evaluates (`reference_matmul` with `fp9_multiply`
replaced by `fp_multiply … 5 4`). -/
theorem pipeline_matches_reference_with_pipeline_multiplier
    (a b c : Fin 8 → Fin 8 → Nat) (prec : PrecisionType) (rm : RoundingMode)
    (i j : Fin 8) :
    (((TensorCoreSim.reset sim0).load_inputs a b c prec rm).run_to_completion).2.d_fp22 i j
      = reference_matmul_pipe_mul a b c rm i j := by
  rw [runEq]
  rfl

end ClaimC1

-- ─────────────────────────────────────────────────────────────
-- Claim C3 — identity-matrix job
-- ─────────────────────────────────────────────────────────────

/-- The identity matrix in FP9: 1.0 (`0x078`) on the diagonal. -/
def idMatFp9 : Fin 8 → Fin 8 → Nat := fun i j => if i = j then 0x078 else 0

section ClaimC3

set_option maxRecDepth 2000000
set_option maxHeartbeats 2000000

/-- Claim C3: for the 8×8×8 job with `A = B = I` (FP9), `C = 0` and RNE,
`run_to_completion` returns exactly `PIPELINE_DEPTH = 11` cycles, the
output is the FP22 encoding of 1.0 (`0x0FE000`) on the diagonal and `+0`
elsewhere, and the pipelined result agrees bit-exactly with
`reference_matmul`. -/
theorem identity_job_result :
    (((TensorCoreSim.reset sim0).load_inputs idMatFp9 idMatFp9 zeroMat
        PrecisionType.PREC_FP8_E4M3 RNE).run_to_completion).1 = PIPELINE_DEPTH
    ∧ (∀ i j : Fin 8,
        (((TensorCoreSim.reset sim0).load_inputs idMatFp9 idMatFp9 zeroMat
            PrecisionType.PREC_FP8_E4M3 RNE).run_to_completion).2.d_fp22 i j
          = if i = j then 0x0FE000 else 0)
    ∧ (∀ i j : Fin 8,
        (((TensorCoreSim.reset sim0).load_inputs idMatFp9 idMatFp9 zeroMat
            PrecisionType.PREC_FP8_E4M3 RNE).run_to_completion).2.d_fp22 i j
          = reference_matmul idMatFp9 idMatFp9 zeroMat RNE i j) := by decide

end ClaimC3

-- ─────────────────────────────────────────────────────────────
-- Claim C9 — ticking past completion never disturbs a completed cell
-- ─────────────────────────────────────────────────────────────

section ClaimC9

set_option maxRecDepth 2000000
set_option maxHeartbeats 2000000

/-- Claim C9: once a cell's output-conversion latch has published its
result (`conv_valid`, which is what "the cell has become valid within a
job" means — `tick_dot_product` sets it together with `d_valid`), every
subsequent `tick` leaves `d_valid[i][j]` true and `d_fp22[i][j]`
bit-unchanged: the `d` write in stage 11 is guarded by `!conv_valid`, and
nothing else touches the cell's output. -/
theorem tick_preserves_completed_cell (s : TensorCoreSim) (i j : Fin 8)
    (hc : (s.cells i j).p.conv_valid = true) (hv : s.d_valid i j = true) :
    (s.tick).d_valid i j = true ∧ (s.tick).d_fp22 i j = s.d_fp22 i j := by
  unfold TensorCoreSim.d_valid TensorCoreSim.d_fp22 at *
  constructor <;>
    simp [TensorCoreSim.tick, tick_cell, hc, hv]

/-- A concrete completed state used to witness `tick_preserves_completed_cell`. -/
def simC9 : TensorCoreSim :=
  { sim0 with cells := fun _ _ =>
      { p := { dp0 with conv_valid := true, conv_fp22 := 42 }, dv := true, dfp := 42 } }

theorem tick_preserves_completed_cell_witness :
    (simC9.tick).d_valid 0 0 = true ∧ (simC9.tick).d_fp22 0 0 = simC9.d_fp22 0 0 :=
  tick_preserves_completed_cell simC9 0 0 rfl rfl

end ClaimC9

-- ─────────────────────────────────────────────────────────────
-- Claim C2 — the rounding primitive's contract
-- ─────────────────────────────────────────────────────────────

section ClaimC2

/-- Claim C2: for every `WIDTH`-bit significand, sign, `roundin`,
`stickyin` and mode, `do_rounding` returns `inexact = roundin ∨ stickyin`;
`round_up` per the mode table — RNE: up iff guard ∧ (round ∨ sticky ∨ lsb)
with guard = `roundin` and round ∨ sticky = `stickyin` at this interface;
RTZ: never; RDN: up iff sign ∧ inexact; RUP: up iff ¬sign ∧ inexact;
RMM: up iff guard — `out = (in + round_up) mod 2^WIDTH`; and `cout` is bit
`WIDTH` of the sum `in + round_up`. -/
theorem do_rounding_contract (inp WIDTH : Nat) (sign roundin stickyin : Bool)
    (rm : RoundingMode) (h : inp < 2 ^ WIDTH) :
    (do_rounding inp WIDTH sign roundin stickyin rm).inexact = (roundin || stickyin)
    ∧ (do_rounding inp WIDTH sign roundin stickyin rm).r_up =
        (match rm with
          | RNE => roundin && (stickyin || (inp % 2 == 1))
          | RTZ => false
          | RDN => sign && (roundin || stickyin)
          | RUP => !sign && (roundin || stickyin)
          | RMM => roundin)
    ∧ (do_rounding inp WIDTH sign roundin stickyin rm).out =
        (inp + cond (do_rounding inp WIDTH sign roundin stickyin rm).r_up 1 0) % 2 ^ WIDTH
    ∧ (do_rounding inp WIDTH sign roundin stickyin rm).cout =
        ((inp + cond (do_rounding inp WIDTH sign roundin stickyin rm).r_up 1 0)
          / 2 ^ WIDTH % 2 == 1) := by
  have hmask : ∀ n : Nat, n &&& (1 <<< WIDTH - 1) = n % 2 ^ WIDTH := by
    intro n
    rw [Nat.shiftLeft_eq, one_mul, Nat.and_pow_two_sub_one_eq_mod]
  have hi : inp &&& (1 <<< WIDTH - 1) = inp := by
    rw [hmask, Nat.mod_eq_of_lt h]
  cases rm <;>
    simp [do_rounding, hi, hmask, Nat.and_one_is_mod, Nat.shiftRight_eq_div_pow,
      Nat.mod_eq_of_lt h]

theorem do_rounding_contract_witness :
    (6 : Nat) < 2 ^ 3
    ∧ ((do_rounding 6 3 false true false RNE).inexact = (true || false)
        ∧ (do_rounding 6 3 false true false RNE).r_up =
            (true && (false || ((6 : Nat) % 2 == 1)))
        ∧ (do_rounding 6 3 false true false RNE).out =
            (6 + cond (do_rounding 6 3 false true false RNE).r_up 1 0) % 2 ^ 3
        ∧ (do_rounding 6 3 false true false RNE).cout =
            ((6 + cond (do_rounding 6 3 false true false RNE).r_up 1 0)
              / 2 ^ 3 % 2 == 1)) :=
  ⟨by decide, do_rounding_contract 6 3 false true false RNE (by decide)⟩

end ClaimC2

-- ─────────────────────────────────────────────────────────────
-- Claim C10 — the host-double shortcut primitives ignore the mode
-- ─────────────────────────────────────────────────────────────

section ClaimC10

/-- Claim C10: `fp9_multiply`, `fp9_add` and `fp22_add` discard their
rounding-mode argument (`(void)rm;` in fp_arith.h), so each returns
identical bits under any two modes, and consequently `reference_matmul`
(which is composed exclusively of these primitives) is independent of the
selected rounding mode. -/
theorem double_shortcut_primitives_ignore_rounding_mode
    (x y : Nat) (rm1 rm2 : RoundingMode) :
    fp9_multiply x y rm1 = fp9_multiply x y rm2
    ∧ fp9_add x y rm1 = fp9_add x y rm2
    ∧ fp22_add x y rm1 = fp22_add x y rm2
    ∧ ∀ (a b c : Fin 8 → Fin 8 → Nat) (i j : Fin 8),
        reference_matmul a b c rm1 i j = reference_matmul a b c rm2 i j :=
  ⟨rfl, rfl, rfl, fun _ _ _ _ _ => rfl⟩

end ClaimC10

-- ─────────────────────────────────────────────────────────────
-- Claims C6 / C7 — conversion losslessness
-- ─────────────────────────────────────────────────────────────

/-- `fp4_to_double` from fp_types.h (exact, FP4 values are exact in
double). -/
def fp4_to_double (v : Nat) : FDouble :=
  let s := (v >>> 3) &&& 1 == 1
  let e := (v >>> 1) &&& 0x3
  let m := v &&& 0x1
  if e = 3 ∧ m = 1 then .nan
  else if e = 3 ∧ m = 0 then .inf s
  else if e = 0 ∧ m = 0 then .fin s 0 0
  else if e = 0 then .fin s m (-1)          -- (m/2) * 2^0
  else .fin s (2 + m) ((e : Int) - 2)       -- (1 + m/2) * 2^(e-1)

/-- Canonical representative of an `FDouble` (unique per real value for
the exactly representable values handled here), used to compare denoted
values across formats. -/
def dCanon (d : FDouble) : FDouble :=
  match d with
  | .fin s m e => roundDouble s m e
  | x => x

section ClaimC6

/-- Claim C6 (code evaluated at the failing inputs): the FP16 → FP22 → FP16
round trip under RNE is not the identity on subnormals — the smallest
subnormal `0x0001` comes back as `0x0002` and `0x0200` comes back as
`0x0400` (`fp16_to_fp22` rebias `ne = -14 - lz + 127` doubles every
subnormal, contradicting the same file's `fp16_to_double` valuation). -/
theorem fp16_roundtrip_fails_on_subnormals :
    fp22_to_fp16 (fp16_to_fp22 0x0001) RNE = 0x0002
    ∧ fp22_to_fp16 (fp16_to_fp22 0x0200) RNE = 0x0400 := by decide

end ClaimC6

section ClaimC7

/-- Claim C7 (counterexample): the FPEmu copy of the FP4 → FP9 converter
(otc_fp.cpp) is not lossless: the FP4 subnormal encoding of 0.5 (`0x1`)
maps to FP9 `0x004`, which denotes `2^-15`, not `0.5`. -/
theorem fpemu_fp4_to_fp9_not_lossless :
    dCanon (fp9_to_double (FPEmu.fp4_to_fp9 1)) ≠ dCanon (fp4_to_double 1) := by
  decide

/-- Claim C7 (amended): the tensor-core entry copy of the converter
(`fp4_to_fp9`, fp_types.h) is lossless on every 4-bit input: the FP9
result denotes exactly the same value (NaN to NaN, ±Inf to ±Inf, the
subnormal 0.5 to the FP9 encoding of 0.5).  The FPEmu copy does not
satisfy this. -/
theorem fp4_to_fp9_lossless :
    ∀ x : Fin 16, dCanon (fp9_to_double (fp4_to_fp9 x.val)) = dCanon (fp4_to_double x.val) := by
  decide

end ClaimC7

-- ─────────────────────────────────────────────────────────────
-- Claim C8 — invalid configurations are rejected without mutation
-- ─────────────────────────────────────────────────────────────

section ClaimC8

/-- Claim C8: for every configuration with an unsupported input or output
format tag, a zero dimension, or a positive non-power-of-two `K`,
`otc_configure` returns `-1` to the caller and leaves the device fully
unchanged — neither `tc.init`/`tc.reset` runs (for any behaviour of those
methods) nor is `configured` set, so the error precedes any tick. -/
theorem otc_configure_rejects_invalid {α : Type} (tcInit : α → OTC_Config → α)
    (tcReset : α → α) (dev : OTC_Device α) (cfg : OTC_Config)
    (h : (cfg.type_ab ≠ TYPE_FP4 ∧ cfg.type_ab ≠ TYPE_FP8 ∧ cfg.type_ab ≠ TYPE_FP16)
       ∨ (cfg.type_cd ≠ TYPE_FP16 ∧ cfg.type_cd ≠ TYPE_FP32)
       ∨ cfg.M = 0 ∨ cfg.K = 0 ∨ cfg.N = 0
       ∨ (0 < cfg.K ∧ Int.land cfg.K (cfg.K - 1) ≠ 0)) :
    otc_configure tcInit tcReset dev cfg = (-1, dev) := by
  have hval : cfg.validate = false := by
    simp only [TYPE_FP4, TYPE_FP8, TYPE_FP16, TYPE_FP32] at h
    rcases h with ⟨h1, h2, h3⟩ | ⟨h1, h2⟩ | h1 | h1 | h1 | ⟨h1, h2⟩ <;>
      simp [OTC_Config.validate, TYPE_FP4, TYPE_FP8, TYPE_FP16, TYPE_FP32, *]
  simp [otc_configure, hval]

/-- A configuration with `K = 3` used to witness the rejection theorem. -/
def cfgK3 : OTC_Config := { K := 3 }

theorem otc_configure_rejects_invalid_witness :
    ((cfgK3.type_ab ≠ TYPE_FP4 ∧ cfgK3.type_ab ≠ TYPE_FP8 ∧ cfgK3.type_ab ≠ TYPE_FP16)
       ∨ (cfgK3.type_cd ≠ TYPE_FP16 ∧ cfgK3.type_cd ≠ TYPE_FP32)
       ∨ cfgK3.M = 0 ∨ cfgK3.K = 0 ∨ cfgK3.N = 0
       ∨ (0 < cfgK3.K ∧ Int.land cfgK3.K (cfgK3.K - 1) ≠ 0))
    ∧ otc_configure (fun (t : Nat) _ => t) (fun t => t) ⟨0, false⟩ cfgK3
        = (-1, ⟨0, false⟩) :=
  ⟨by decide,
   otc_configure_rejects_invalid (fun (t : Nat) _ => t) (fun t => t) ⟨0, false⟩ cfgK3
     (by decide)⟩

end ClaimC8

-- ─────────────────────────────────────────────────────────────
-- Claim C5 — special-case (NaN) outputs of the adder and multiplier
-- ─────────────────────────────────────────────────────────────

/-- Exponent field of a packed operand (as extracted by fadd_s1/fmul_s1). -/
def expField (EW P x : Nat) : Nat := (x >>> (P - 1)) &&& ((1 <<< EW) - 1)

/-- Mantissa field of a packed operand. -/
def mantField (P x : Nat) : Nat := x &&& ((1 <<< (P - 1)) - 1)

/-- Sign bit of a packed operand. -/
def signField (EW P x : Nat) : Nat := (x >>> (EW + P - 1)) &&& 1

abbrev isNaNBits (EW P x : Nat) : Prop :=
  expField EW P x = (1 <<< EW) - 1 ∧ mantField P x ≠ 0

abbrev isSNaNBits (EW P x : Nat) : Prop :=
  isNaNBits EW P x ∧ (mantField P x >>> (P - 2)) &&& 1 = 0

abbrev isInfBits (EW P x : Nat) : Prop :=
  expField EW P x = (1 <<< EW) - 1 ∧ mantField P x = 0

abbrev isZeroBits (EW P x : Nat) : Prop :=
  expField EW P x = 0 ∧ mantField P x = 0

/-- Quiet-NaN pattern: exponent all-ones, mantissa MSB (quiet bit) set. -/
def qnanOf (EW P : Nat) (s : Bool) : Nat :=
  (cond s 1 0) <<< (EW + P - 1) ||| (((1 <<< EW) - 1) <<< (P - 1)) ||| (1 <<< (P - 2))

section ClaimC5

/-- Shared tail for the adder special cases: once the `fadd_s1` special
flags are known, `fadd_s2` returns the quiet NaN with sign 0. -/
theorem fadd_special_nan_result (EW P OPC : Nat) (rm : RoundingMode) (x y : Nat)
    (hv : (fadd_s1 x y EW P OPC rm).special_case_valid = true)
    (hn : (fadd_s1 x y EW P OPC rm).special_case_nan = true) :
    fp_add x y EW P OPC rm
      = (((1 <<< EW) - 1) <<< (OPC - 1)) ||| (1 <<< (OPC - 2)) := by
  show fadd_s2 (fadd_s1 x y EW P OPC rm) EW OPC = _
  rw [fadd_s2, if_pos hv, if_pos hn]
  have ht : ((1 <<< EW : Int) - 1).toNat = (1 <<< EW) - 1 := by
    have h0 : (1 <<< EW : Int) = ((1 <<< EW : Nat) : Int) := rfl
    omega
  rw [ht]

/-- Shared tail for the multiplier special-NaN cases. -/
theorem fmul_special_nan_result (EW P : Nat) (rm : RoundingMode) (x y : Nat)
    (hP : 2 ≤ P)
    (hv : (fmul_s1 x y EW P rm).special_case_valid = true)
    (hn : (fmul_s1 x y EW P rm).special_case_nan = true) :
    fp_multiply x y EW P rm
      = qnanOf EW P
          (xor ((x >>> (EW + P - 1)) &&& 1 == 1) ((y >>> (EW + P - 1)) &&& 1 == 1)) := by
  show fmul_s3 (fmul_s2 x y EW P (fmul_s1 x y EW P rm)) EW P = _
  have hs2 : (fmul_s2 x y EW P (fmul_s1 x y EW P rm)).s1 = fmul_s1 x y EW P rm := rfl
  rw [fmul_s3, hs2, if_pos hv, hn]
  have hsign : (fmul_s1 x y EW P rm).prod_sign
      = xor ((x >>> (EW + P - 1)) &&& 1 == 1) ((y >>> (EW + P - 1)) &&& 1 == 1) := rfl
  rw [hsign]
  have hpos : 0 < (1 <<< EW : Nat) := by
    rw [Nat.shiftLeft_eq]; positivity
  have ht : ((((1 <<< EW : Nat) : Int) - 1).land (((1 <<< EW : Nat) : Int) - 1)).toNat
      = (1 <<< EW) - 1 := by
    have e1 : (((1 <<< EW : Nat) : Int) - (1 : ℤ)) = (((1 <<< EW - 1 : Nat)) : Int) := by
      push_cast [hpos]
      omega
    rw [e1]
    have e2 : Int.land (((1 <<< EW - 1 : Nat)) : Int) (((1 <<< EW - 1 : Nat)) : Int)
        = ((((1 <<< EW - 1) &&& (1 <<< EW - 1) : Nat)) : Int) := rfl
    rw [e2, Nat.and_self]
    simp
  have hm : (1 <<< (P - 2)) &&& ((1 <<< (P - 1)) - 1) = (1 <<< (P - 2) : Nat) := by
    simp only [Nat.shiftLeft_eq, one_mul, Nat.and_pow_two_sub_one_eq_mod]
    exact Nat.mod_eq_of_lt (Nat.pow_lt_pow_right (by omega) (by omega))
  simp [qnanOf, ht, hm]

/-- Claim C5: any NaN operand, and `+Inf + (−Inf)`, makes the two-path
adder return the quiet NaN with sign bit 0 (exponent all-ones, mantissa
MSB set); and a signaling-NaN operand or `0 × Inf` makes the three-phase
multiplier return a quiet NaN (exponent all-ones, quiet bit set, sign =
XOR of the operand signs). -/
theorem adder_and_multiplier_quiet_nan (EW P OPC : Nat) (rm : RoundingMode) (x y : Nat) :
    ((isNaNBits EW P x ∨ isNaNBits EW P y
        ∨ (isInfBits EW P x ∧ isInfBits EW P y ∧ signField EW P x ≠ signField EW P y))
      → fp_add x y EW P OPC rm
          = (((1 <<< EW) - 1) <<< (OPC - 1)) ||| (1 <<< (OPC - 2)))
    ∧ (2 ≤ P →
       (isSNaNBits EW P x ∨ isSNaNBits EW P y
          ∨ (isZeroBits EW P x ∧ isInfBits EW P y)
          ∨ (isInfBits EW P x ∧ isZeroBits EW P y))
      → fp_multiply x y EW P rm
          = qnanOf EW P
              (xor ((x >>> (EW + P - 1)) &&& 1 == 1)
                   ((y >>> (EW + P - 1)) &&& 1 == 1))) := by
  constructor
  · intro h
    have hvn : (fadd_s1 x y EW P OPC rm).special_case_valid = true
        ∧ (fadd_s1 x y EW P OPC rm).special_case_nan = true := by
      rcases h with ⟨h1, h2⟩ | ⟨h1, h2⟩ | ⟨⟨hx1, hx2⟩, ⟨hy1, hy2⟩, hs⟩
      · simp only [expField, mantField] at h1 h2
        constructor <;> simp [fadd_s1, h1, h2]
      · simp only [expField, mantField] at h1 h2
        constructor <;> simp [fadd_s1, h1, h2]
      · simp only [expField, mantField, signField] at hx1 hx2 hy1 hy2 hs
        have bx : (x >>> (EW + P - 1)) &&& 1 = 0 ∨ (x >>> (EW + P - 1)) &&& 1 = 1 := by
          have := Nat.and_le_right (n := x >>> (EW + P - 1)) (m := 1); omega
        have byy : (y >>> (EW + P - 1)) &&& 1 = 0 ∨ (y >>> (EW + P - 1)) &&& 1 = 1 := by
          have := Nat.and_le_right (n := y >>> (EW + P - 1)) (m := 1); omega
        constructor
        · simp [fadd_s1, hx1, hx2]
        · rcases bx with hb | hb <;> rcases byy with hc | hc <;>
            first
              | (exfalso; omega)
              | simp [fadd_s1, hx1, hx2, hy1, hy2, hb, hc]
    exact fadd_special_nan_result EW P OPC rm x y hvn.1 hvn.2
  · intro hP h
    have hvn : (fmul_s1 x y EW P rm).special_case_valid = true
        ∧ (fmul_s1 x y EW P rm).special_case_nan = true := by
      rcases h with ⟨⟨h1, h2⟩, _⟩ | ⟨⟨h1, h2⟩, _⟩ | ⟨⟨hx1, hx2⟩, ⟨hy1, hy2⟩⟩ | ⟨⟨hx1, hx2⟩, ⟨hy1, hy2⟩⟩
      · simp only [expField, mantField] at h1 h2
        constructor <;> simp [fmul_s1, h1, h2]
      · simp only [expField, mantField] at h1 h2
        constructor <;> simp [fmul_s1, h1, h2]
      · simp only [expField, mantField] at hx1 hx2 hy1 hy2
        constructor <;> simp [fmul_s1, hx1, hx2, hy1, hy2]
      · simp only [expField, mantField] at hx1 hx2 hy1 hy2
        constructor <;> simp [fmul_s1, hx1, hx2, hy1, hy2]
    exact fmul_special_nan_result EW P rm x y hP hvn.1 hvn.2

theorem adder_and_multiplier_quiet_nan_witness :
    (isNaNBits 5 4 0x0FC
      ∧ fp_add 0x0FC 0x078 5 4 4 RNE = (((1 <<< 5) - 1) <<< 3) ||| (1 <<< 2))
    ∧ ((2 : Nat) ≤ 4 ∧ isSNaNBits 5 4 0x0F9
      ∧ fp_multiply 0x0F9 0x078 5 4 RNE
          = qnanOf 5 4
              (xor (((0x0F9 : Nat) >>> 8) &&& 1 == 1) (((0x078 : Nat) >>> 8) &&& 1 == 1))) :=
  ⟨⟨by decide,
    (adder_and_multiplier_quiet_nan 5 4 4 RNE 0x0FC 0x078).1 (Or.inl (by decide))⟩,
   ⟨by decide, by decide,
    (adder_and_multiplier_quiet_nan 5 4 4 RNE 0x0F9 0x078).2 (by decide)
      (Or.inl (by decide))⟩⟩

end ClaimC5

-- ─────────────────────────────────────────────────────────────
-- Claim C4 — E4M3 overflow saturation
-- ─────────────────────────────────────────────────────────────

/-- Absolute value of a sign-magnitude product with unit sign factor. -/
lemma absSgnMul (sg A B : ℚ) (h : sg = 1 ∨ sg = -1) (hA : 0 ≤ A) (hB : 0 ≤ B) :
    |sg * A * B| = A * B := by
  rcases h with rfl | rfl
  · rw [one_mul, abs_of_nonneg (mul_nonneg hA hB)]
  · rw [show (-1:ℚ) * A * B = -(A * B) by ring, abs_neg, abs_of_nonneg (mul_nonneg hA hB)]

/-- Any finite FP22 magnitude above the largest finite E4M3 value (240)
has exponent field at least 135, or exactly 134 with mantissa above 7168
(the fraction bits encoding 240 at that exponent). -/
lemma fp22_magnitude_saturating (x : Nat)
    (hgt : |fp22_to_val x| > (240 : ℚ)) :
    135 ≤ (x >>> 13) &&& 0xFF
      ∨ ((x >>> 13) &&& 0xFF = 134 ∧ 7168 < x &&& 0x1FFF) := by
  have hm : x &&& 0x1FFF ≤ 8191 := Nat.and_le_right
  have he255 : (x >>> 13) &&& 0xFF ≤ 255 := Nat.and_le_right
  have hmq : ((x &&& 0x1FFF : Nat) : ℚ) ≤ 8191 := by exact_mod_cast hm
  have hmq0 : (0:ℚ) ≤ ((x &&& 0x1FFF : Nat) : ℚ) := by positivity
  have hsgn : (if (x >>> 21) &&& 1 = 1 then (-1:ℚ) else 1) = 1
      ∨ (if (x >>> 21) &&& 1 = 1 then (-1:ℚ) else 1) = -1 := by
    split
    · right; rfl
    · left; rfl
  simp only [fp22_to_val] at hgt
  by_cases he0 : (x >>> 13) &&& 0xFF = 0
  · exfalso
    rw [if_pos he0] at hgt
    rw [absSgnMul _ _ _ hsgn (by positivity) (by positivity)] at hgt
    have ht : (2:ℚ) ^ (-(126:ℤ)) ≤ (2:ℚ) ^ (0:ℤ) :=
      zpow_le_zpow_right₀ (by norm_num) (by omega)
    rw [zpow_zero] at ht
    have htp : (0:ℚ) < (2:ℚ) ^ (-(126:ℤ)) := by positivity
    have hd : ((x &&& 0x1FFF : Nat) : ℚ) / 8192 ≤ 1 := by
      rw [div_le_one (by norm_num)]; linarith
    have hb : ((x &&& 0x1FFF : Nat) : ℚ) / 8192 * (2:ℚ) ^ (-(126:ℤ)) ≤ 1 * 1 :=
      mul_le_mul hd ht htp.le (by norm_num)
    linarith
  · rw [if_neg he0] at hgt
    rw [absSgnMul _ _ _ hsgn (by positivity) (by positivity)] at hgt
    by_cases h135 : 135 ≤ (x >>> 13) &&& 0xFF
    · exact Or.inl h135
    · by_cases h134 : (x >>> 13) &&& 0xFF = 134
      · refine Or.inr ⟨h134, ?_⟩
        rw [h134] at hgt
        have hp : (2:ℚ) ^ ((((134:Nat)):ℤ) - 127) = 128 := by norm_num
        rw [hp] at hgt
        have h78 : (7:ℚ)/8 < ((x &&& 0x1FFF : Nat):ℚ)/8192 := by linarith
        rw [div_lt_div_iff₀ (by norm_num) (by norm_num)] at h78
        have hf : (7168:ℚ) < ((x &&& 0x1FFF : Nat):ℚ) := by linarith
        exact_mod_cast hf
      · exfalso
        have hA : 1 + ((x &&& 0x1FFF : Nat):ℚ)/8192 ≤ 2 := by
          have : ((x &&& 0x1FFF : Nat):ℚ)/8192 ≤ 1 := by
            rw [div_le_one (by norm_num)]; linarith
          linarith
        have hB : (2:ℚ) ^ ((((x >>> 13) &&& 0xFF : Nat):ℤ) - 127) ≤ (2:ℚ) ^ (6:ℤ) :=
          zpow_le_zpow_right₀ (by norm_num) (by omega)
        have h64 : (2:ℚ) ^ (6:ℤ) = 64 := by norm_num
        have hpos : (0:ℚ) < (2:ℚ) ^ ((((x >>> 13) &&& 0xFF : Nat):ℤ) - 127) := by
          positivity
        have hb2 : (1 + ((x &&& 0x1FFF : Nat):ℚ)/8192)
              * (2:ℚ) ^ ((((x >>> 13) &&& 0xFF : Nat):ℤ) - 127) ≤ 2 * 64 := by
          calc (1 + ((x &&& 0x1FFF : Nat):ℚ)/8192)
                * (2:ℚ) ^ ((((x >>> 13) &&& 0xFF : Nat):ℤ) - 127)
              ≤ 2 * (2:ℚ) ^ (6:ℤ) :=
                mul_le_mul hA hB hpos.le (by norm_num)
            _ = 2 * 64 := by rw [h64]
        linarith

set_option maxHeartbeats 1000000 in
/-- Claim C4: for every FP22 input whose magnitude exceeds the largest
finite FP8 E4M3 value (240, encoded 0x77) — including FP22 infinities —
and for every rounding mode, `fp22_to_fp8_e4m3` returns the max-finite
encoding: sign preserved, exponent field 14, mantissa 7.  The result is
never an exponent-15 encoding, and the saturation target is the same
fixed bit pattern for all five rounding modes. -/
theorem fp22_to_fp8_e4m3_saturates_overflow (x : Nat) (rm : RoundingMode)
    (h : ((x >>> 13) &&& 0xFF ≠ 0xFF ∧ |fp22_to_val x| > fp8_e4m3_to_val 0x77)
       ∨ ((x >>> 13) &&& 0xFF = 0xFF ∧ x &&& 0x1FFF = 0)) :
    fp22_to_fp8_e4m3 x rm = ((x >>> 21) &&& 1) <<< 7 ||| (14 <<< 3) ||| 7 := by
  have h240 : fp8_e4m3_to_val 0x77 = 240 := by
    have e1 : (0x77:Nat) >>> 3 &&& 0xF = 14 := by decide
    have e2 : (0x77:Nat) >>> 7 &&& 1 = 0 := by decide
    have e3 : (0x77:Nat) &&& 0x7 = 7 := by decide
    simp only [fp8_e4m3_to_val, e1, e2, e3]
    norm_num
  rcases h with ⟨hne, hgt⟩ | ⟨he, hm0⟩
  · rw [h240] at hgt
    rcases fp22_magnitude_saturating x hgt with h135 | ⟨h134, hm⟩
    · have he0 : (x >>> 13) &&& 0xFF ≠ 0 := by omega
      have h15 : ((((x >>> 13) &&& 0xFF : Nat) : Int) - 120 ≥ 15) := by
        have : (135:Nat) ≤ (x >>> 13) &&& 0xFF := h135
        omega
      simp only [fp22_to_fp8_e4m3]
      rw [if_neg hne, if_neg he0, if_pos h15]
    · have he0 : (x >>> 13) &&& 0xFF ≠ 0 := by omega
      have hmle : x &&& 0x1FFF ≤ 8191 := Nat.and_le_right
      have ho : (x &&& 0x1FFF) >>> 10 = 7 := by
        rw [Nat.shiftRight_eq_div_pow]
        omega
      have h15 : ¬ ((((x >>> 13) &&& 0xFF : Nat) : Int) - 120 ≥ 15) := by
        rw [h134]; norm_num
      have hle0 : ¬ ((((x >>> 13) &&& 0xFF : Nat) : Int) - 120 ≤ 0) := by
        rw [h134]; norm_num
      simp only [fp22_to_fp8_e4m3]
      rw [if_neg hne, if_neg he0, if_neg h15, if_neg hle0, ho]
      simp only [h134]
      split
      · simp
      · simp
  · simp only [fp22_to_fp8_e4m3]
    rw [if_pos he]

theorem fp22_to_fp8_e4m3_saturates_overflow_witness :
    ((((0x1FE000 : Nat) >>> 13) &&& 0xFF = 0xFF ∧ (0x1FE000 : Nat) &&& 0x1FFF = 0)
    ∧ fp22_to_fp8_e4m3 0x1FE000 RTZ
        = (((0x1FE000 : Nat) >>> 21) &&& 1) <<< 7 ||| (14 <<< 3) ||| 7) :=
  ⟨⟨by decide, by decide⟩,
   fp22_to_fp8_e4m3_saturates_overflow 0x1FE000 RTZ (Or.inr ⟨by decide, by decide⟩)⟩
